import Mathlib

set_option maxRecDepth 16384
set_option maxHeartbeats 2000000

/-!
Shallow embedding of the ArkTS code generator (`code_generator.py`, `cli.py`).

Modelling conventions:
* Python strings are Lean `String`s; per-character operations (`str.lower`,
  `str.split`, slicing, `endswith` with single-character suffixes) are modelled
  on `String.data : List Char`, which matches Python's per-character semantics.
* Python dicts built by successive insertion of distinct keys are modelled as
  association lists (`List (String × String)`) in insertion order.
* `ValidationRule.value` (`Optional[any]` in the source, interpolated into
  f-strings via `str(...)`) is modelled in its printed form as `Option String`,
  with `None` printing as `"None"`, exactly as Python would interpolate it.
* Literal braces, apostrophes and backticks occurring in the generated ArkTS
  text are written with `\x7b`, `\x7d`, `\x27`, `\x60` escapes.
-/

/-- Enumeration of the supported validation kinds (`ValidationType`). -/
inductive ValidationType where
  | required
  | min_length
  | max_length
  | email
  | min
  | max
  | pattern
deriving DecidableEq

/-- One validation rule (`ValidationRule`): kind, optional payload in printed
form, optional custom message. -/
structure ValidationRule where
  type : ValidationType
  value : Option String := none
  message : Option String := none
deriving DecidableEq

/-- One entity property (`PropertyConfig`). -/
structure PropertyConfig where
  name : String
  type : String
  optional : Bool := false
  validation : List ValidationRule := []
deriving DecidableEq

/-- The generator configuration (`GeneratorConfig`).  The `architecture` field
is an unrestricted string: Python's `Literal['mvvm', 'clean']` annotation is
not enforced at runtime, so any string can actually reach `generate_all`. -/
structure GeneratorConfig where
  entity_name : String
  properties : List PropertyConfig
  include_cache : Bool := false
  include_validation : Bool := false
  architecture : String := "clean"
deriving DecidableEq

/-- Python's `str(x)` on the printed-form payload: `None` prints as "None". -/
def py_str_opt : Option String → String
  | some s => s
  | none => "None"

/-- Python's `a or b` for an optional message string: the message is used when
it is present and truthy (non-empty), otherwise the default applies. -/
def py_or_message (message : Option String) (dflt : String) : String :=
  match message with
  | some m => if m = "" then dflt else m
  | none => dflt

/-- Python's `str.lower` (per-character lowercasing), as used in
`CodeGenerator.__init__` on the entity name. -/
def py_lower (s : String) : String :=
  String.mk (s.data.map Char.toLower)

/-- `CodeGenerator._pluralize`.  Python's `word.endswith('y')` with a
single-character suffix is the last-character test, and `word[:-1]` drops the
last character. -/
def pluralize (word : String) : String :=
  if word.data.getLast? = some 'y' then String.mk word.data.dropLast ++ "ies"
  else if word.data.getLast? = some 's' ∨ word.data.getLast? = some 'x' ∨
      word.data.getLast? = some 'z' then word ++ "es"
  else word ++ "s"

/-- `self.entity_name_lower`, computed in `CodeGenerator.__init__`. -/
def entity_name_lower (c : GeneratorConfig) : String :=
  py_lower c.entity_name

/-- `self.entity_name_plural`, computed in `CodeGenerator.__init__`. -/
def entity_name_plural (c : GeneratorConfig) : String :=
  pluralize (entity_name_lower c)

/-- The endpoint string interpolated into both the CLEAN remote datasource
implementation and the MVVM repository (the f-string piece
`'/{self.entity_name_lower}s'`): a slash, the lowercased entity name, and a
plain appended letter s. -/
def request_endpoint (c : GeneratorConfig) : String :=
  "/" ++ entity_name_lower c ++ "s"

/-- `CodeGenerator._indent_code`.  Python's `line.strip()` truthiness test is
"the line has a non-whitespace character"; splitting on newlines is modelled
per character. -/
def indent_code (text : String) (level : Nat) : String :=
  let indent := String.join (List.replicate level "  ")
  String.intercalate "\n"
    (((text.data.splitOn '\n').map String.mk).map
      (fun line => if line.data.all Char.isWhitespace then line else indent ++ line))

/-- `CodeGenerator._get_default_value`. -/
def get_default_value (prop : PropertyConfig) : String :=
  if prop.name = "id" then " = 0"
  else if prop.optional then ""
  else if prop.type = "string" then " = \x27\x27"
  else if prop.type = "number" then " = 0"
  else if prop.type = "boolean" then " = false"
  else if prop.type = "Date" then " = new Date()"
  else ""

/-- `CodeGenerator._generate_properties`. -/
def generate_properties (c : GeneratorConfig) : String :=
  String.intercalate "\n" (c.properties.map (fun prop =>
    let optional := if prop.optional then "?" else ""
    let readonly := if prop.name = "id" then "readonly " else ""
    "  public " ++ readonly ++ prop.name ++ optional ++ ": " ++ prop.type ++ ";"))

/-- `CodeGenerator._generate_constructor_params`. -/
def generate_constructor_params (c : GeneratorConfig) : String :=
  String.intercalate ",\n" (c.properties.map (fun prop =>
    let optional := if prop.optional then "?" else ""
    "    public " ++ prop.name ++ optional ++ ": " ++ prop.type ++ get_default_value prop))

/-- The text appended to the validation method for a single rule of a single
property, from the rule dispatch in `CodeGenerator._generate_validations`. -/
def validation_chunk (prop : PropertyConfig) (rule : ValidationRule) : String :=
  match rule.type with
  | ValidationType.required =>
      if prop.type = "string" then
        "    if (!this." ++ prop.name ++ " || this." ++ prop.name ++
        ".trim().length === 0) \x7b\n      throw new Error(\x27" ++
        py_or_message rule.message (prop.name ++ " é obrigatório") ++
        "\x27);\n    \x7d\n"
      else
        "    if (this." ++ prop.name ++ " === undefined || this." ++ prop.name ++
        " === null) \x7b\n      throw new Error(\x27" ++
        py_or_message rule.message (prop.name ++ " é obrigatório") ++
        "\x27);\n    \x7d\n"
  | ValidationType.min_length =>
      "    if (this." ++ prop.name ++ ".length < " ++ py_str_opt rule.value ++
      ") \x7b\n      throw new Error(\x27" ++
      py_or_message rule.message
        (prop.name ++ " deve ter no mínimo " ++ py_str_opt rule.value ++ " caracteres") ++
      "\x27);\n    \x7d\n"
  | ValidationType.max_length =>
      "    if (this." ++ prop.name ++ ".length > " ++ py_str_opt rule.value ++
      ") \x7b\n      throw new Error(\x27" ++
      py_or_message rule.message
        (prop.name ++ " deve ter no máximo " ++ py_str_opt rule.value ++ " caracteres") ++
      "\x27);\n    \x7d\n"
  | ValidationType.email =>
      "    const emailRegex = /^[^\\s@]+@[^\\s@]+\\.[^\\s@]+$/;\n" ++
      "    if (!emailRegex.test(this." ++ prop.name ++
      ")) \x7b\n      throw new Error(\x27" ++
      py_or_message rule.message (prop.name ++ " inválido") ++
      "\x27);\n    \x7d\n"
  | ValidationType.min =>
      "    if (this." ++ prop.name ++ " < " ++ py_str_opt rule.value ++
      ") \x7b\n      throw new Error(\x27" ++
      py_or_message rule.message
        (prop.name ++ " deve ser maior ou igual a " ++ py_str_opt rule.value) ++
      "\x27);\n    \x7d\n"
  | ValidationType.max =>
      "    if (this." ++ prop.name ++ " > " ++ py_str_opt rule.value ++
      ") \x7b\n      throw new Error(\x27" ++
      py_or_message rule.message
        (prop.name ++ " deve ser menor ou igual a " ++ py_str_opt rule.value) ++
      "\x27);\n    \x7d\n"
  | ValidationType.pattern =>
      "    const pattern = new RegExp(\x27" ++ py_str_opt rule.value ++
      "\x27);\n    if (!pattern.test(this." ++ prop.name ++
      ")) \x7b\n      throw new Error(\x27" ++
      py_or_message rule.message (prop.name ++ " inválido") ++
      "\x27);\n    \x7d\n"

/-- `CodeGenerator._generate_validations`. -/
def generate_validations (c : GeneratorConfig) : String :=
  if c.include_validation = false then ""
  else
    "private validate(): void \x7b\n" ++
    String.join (c.properties.map (fun prop =>
      String.join (prop.validation.map (validation_chunk prop)))) ++
    "  \x7d"

/-- `CodeGenerator._generate_copy_method`. -/
def generate_copy_method (c : GeneratorConfig) : String :=
  let updates_params := String.intercalate ", "
    (c.properties.map (fun p => p.name ++ "?: " ++ p.type))
  let copy_args := String.intercalate ",\n      "
    (c.properties.map (fun p => "updates." ++ p.name ++ " ?? this." ++ p.name))
  "/**\n   * Cria uma cópia do objeto\n   */\n  copy(updates?: \x7b " ++
  updates_params ++ " \x7d): " ++ c.entity_name ++
  " \x7b\n    if (!updates) updates = \x7b\x7d;\n    return new " ++
  c.entity_name ++ "(\n      " ++ copy_args ++ "\n    );\n  \x7d"

/-- `CodeGenerator._generate_to_json_method`. -/
def generate_to_json_method (c : GeneratorConfig) : String :=
  let json_body := String.intercalate ",\n      "
    (c.properties.map (fun prop =>
      if prop.type = "Date" then
        if prop.optional then
          prop.name ++ ": this." ++ prop.name ++ "?.toISOString()"
        else
          prop.name ++ ": this." ++ prop.name ++ ".toISOString()"
      else prop.name ++ ": this." ++ prop.name))
  "/**\n   * Converte para objeto simples\n   */\n  toJson(): Record<string, Object> \x7b\n    return \x7b\n      " ++
  json_body ++ "\n    \x7d;\n  \x7d"

/-- `CodeGenerator._generate_from_json_method`. -/
def generate_from_json_method (c : GeneratorConfig) : String :=
  let from_json_body := String.intercalate ",\n      "
    (c.properties.map (fun prop =>
      if prop.type = "Date" then "new Date(json." ++ prop.name ++ " as string)"
      else "json." ++ prop.name ++ " as " ++ prop.type))
  "/**\n   * Cria instância a partir de JSON\n   */\n  static fromJson(json: Record<string, Object>): " ++
  c.entity_name ++ " \x7b\n    return new " ++ c.entity_name ++ "(\n      " ++
  from_json_body ++ "\n    );\n  \x7d"

/-- `CodeGenerator._generate_entity`. -/
def generate_entity (c : GeneratorConfig) : String :=
  let validation_call := if c.include_validation then "this.validate();" else ""
  let validation_method :=
    if c.include_validation then "\n  " ++ generate_validations c ++ "\n  " else ""
  "// domain/entities/" ++ c.entity_name ++ ".ets\n\nexport class " ++
  c.entity_name ++ " \x7b\n" ++ generate_properties c ++
  "\n  \n  constructor(\n" ++ generate_constructor_params c ++
  "\n  ) \x7b\n    " ++ validation_call ++ "\n  \x7d\n  " ++ validation_method ++
  "\n" ++ indent_code (generate_copy_method c) 1 ++ "\n  \n" ++
  indent_code (generate_to_json_method c) 1 ++ "\n  \n" ++
  indent_code (generate_from_json_method c) 1 ++ "\n\x7d"

/-- `CodeGenerator._generate_repository_interface`. -/
def generate_repository_interface (c : GeneratorConfig) : String :=
  "// domain/repositories/I" ++ c.entity_name ++ "Repository.ets\n\nimport \x7b " ++
  c.entity_name ++ " \x7d from \x27../entities/" ++ c.entity_name ++
  "\x27;\n\nexport interface I" ++ c.entity_name ++ "Repository \x7b\n  get" ++
  entity_name_plural c ++ "(): Promise<" ++ c.entity_name ++ "[]>;\n  get" ++
  c.entity_name ++ "ById(id: number): Promise<" ++ c.entity_name ++
  ">;\n  create" ++ c.entity_name ++ "(entity: " ++ c.entity_name ++
  "): Promise<" ++ c.entity_name ++ ">;\n  update" ++ c.entity_name ++
  "(entity: " ++ c.entity_name ++ "): Promise<" ++ c.entity_name ++
  ">;\n  delete" ++ c.entity_name ++ "(id: number): Promise<void>;\n\x7d"

/-- `CodeGenerator._generate_get_all_usecase`. -/
def generate_get_all_usecase (c : GeneratorConfig) : String :=
  "// domain/usecases/" ++ entity_name_lower c ++ "/Get" ++ entity_name_plural c ++
  "UseCase.ets\n\nimport \x7b " ++ c.entity_name ++ " \x7d from \x27../../entities/" ++
  c.entity_name ++ "\x27;\nimport \x7b I" ++ c.entity_name ++
  "Repository \x7d from \x27../../repositories/I" ++ c.entity_name ++
  "Repository\x27;\n\nexport class Get" ++ entity_name_plural c ++
  "UseCase \x7b\n  constructor(private repository: I" ++ c.entity_name ++
  "Repository) \x7b\x7d\n  \n  async execute(): Promise<" ++ c.entity_name ++
  "[]> \x7b\n    return await this.repository.get" ++ entity_name_plural c ++
  "();\n  \x7d\n\x7d"

/-- `CodeGenerator._generate_get_by_id_usecase`. -/
def generate_get_by_id_usecase (c : GeneratorConfig) : String :=
  "// domain/usecases/" ++ entity_name_lower c ++ "/Get" ++ c.entity_name ++
  "ByIdUseCase.ets\n\nimport \x7b " ++ c.entity_name ++ " \x7d from \x27../../entities/" ++
  c.entity_name ++ "\x27;\nimport \x7b I" ++ c.entity_name ++
  "Repository \x7d from \x27../../repositories/I" ++ c.entity_name ++
  "Repository\x27;\n\nexport class Get" ++ c.entity_name ++
  "ByIdUseCase \x7b\n  constructor(private repository: I" ++ c.entity_name ++
  "Repository) \x7b\x7d\n  \n  async execute(id: number): Promise<" ++
  c.entity_name ++
  "> \x7b\n    if (id <= 0) \x7b\n      throw new Error(\x27ID inválido\x27);\n    \x7d\n    return await this.repository.get" ++
  c.entity_name ++ "ById(id);\n  \x7d\n\x7d"

/-- `CodeGenerator._get_create_params`. -/
def get_create_params (c : GeneratorConfig) : String :=
  String.intercalate ", "
    ((c.properties.filter (fun p => ¬ (p.name = "id"))).map (fun prop =>
      let optional := if prop.optional then "?" else ""
      prop.name ++ optional ++ ": " ++ prop.type))

/-- `CodeGenerator._get_create_args`. -/
def get_create_args (c : GeneratorConfig) : String :=
  String.intercalate ", "
    ((c.properties.filter (fun p => ¬ (p.name = "id"))).map (fun prop => prop.name))

/-- `CodeGenerator._get_entity_creation`. -/
def get_entity_creation (c : GeneratorConfig) : String :=
  String.intercalate ", "
    (c.properties.map (fun prop => if prop.name = "id" then "0" else prop.name))

/-- `CodeGenerator._generate_create_usecase`. -/
def generate_create_usecase (c : GeneratorConfig) : String :=
  "// domain/usecases/" ++ entity_name_lower c ++ "/Create" ++ c.entity_name ++
  "UseCase.ets\n\nimport \x7b " ++ c.entity_name ++ " \x7d from \x27../../entities/" ++
  c.entity_name ++ "\x27;\nimport \x7b I" ++ c.entity_name ++
  "Repository \x7d from \x27../../repositories/I" ++ c.entity_name ++
  "Repository\x27;\n\nexport class Create" ++ c.entity_name ++
  "UseCase \x7b\n  constructor(private repository: I" ++ c.entity_name ++
  "Repository) \x7b\x7d\n  \n  async execute(" ++ get_create_params c ++
  "): Promise<" ++ c.entity_name ++ "> \x7b\n    const entity = new " ++
  c.entity_name ++ "(" ++ get_entity_creation c ++
  ");\n    return await this.repository.create" ++ c.entity_name ++
  "(entity);\n  \x7d\n\x7d"

/-- `CodeGenerator._generate_update_usecase`. -/
def generate_update_usecase (c : GeneratorConfig) : String :=
  "// domain/usecases/" ++ entity_name_lower c ++ "/Update" ++ c.entity_name ++
  "UseCase.ets\n\nimport \x7b " ++ c.entity_name ++ " \x7d from \x27../../entities/" ++
  c.entity_name ++ "\x27;\nimport \x7b I" ++ c.entity_name ++
  "Repository \x7d from \x27../../repositories/I" ++ c.entity_name ++
  "Repository\x27;\n\nexport class Update" ++ c.entity_name ++
  "UseCase \x7b\n  constructor(private repository: I" ++ c.entity_name ++
  "Repository) \x7b\x7d\n  \n  async execute(id: number, updates: Partial<" ++
  c.entity_name ++ ">): Promise<" ++ c.entity_name ++
  "> \x7b\n    const existing = await this.repository.get" ++ c.entity_name ++
  "ById(id);\n    const updated = existing.copy(updates);\n    return await this.repository.update" ++
  c.entity_name ++ "(updated);\n  \x7d\n\x7d"

/-- `CodeGenerator._generate_delete_usecase`. -/
def generate_delete_usecase (c : GeneratorConfig) : String :=
  "// domain/usecases/" ++ entity_name_lower c ++ "/Delete" ++ c.entity_name ++
  "UseCase.ets\n\nimport \x7b I" ++ c.entity_name ++
  "Repository \x7d from \x27../../repositories/I" ++ c.entity_name ++
  "Repository\x27;\n\nexport class Delete" ++ c.entity_name ++
  "UseCase \x7b\n  constructor(private repository: I" ++ c.entity_name ++
  "Repository) \x7b\x7d\n  \n  async execute(id: number): Promise<void> \x7b\n    if (id <= 0) \x7b\n      throw new Error(\x27ID inválido\x27);\n    \x7d\n    await this.repository.delete" ++
  c.entity_name ++ "(id);\n  \x7d\n\x7d"

/-- `CodeGenerator._generate_dto_properties`. -/
def generate_dto_properties (c : GeneratorConfig) : String :=
  String.intercalate "\n" (c.properties.map (fun prop =>
    let optional := if prop.optional then "?" else ""
    let dto_type := if prop.type = "Date" then "string" else prop.type
    "  " ++ prop.name ++ optional ++ ": " ++ dto_type ++ ";"))

/-- `CodeGenerator._generate_to_domain_mapping`. -/
def generate_to_domain_mapping (c : GeneratorConfig) : String :=
  String.intercalate ",\n" (c.properties.map (fun prop =>
    if prop.type = "Date" then "      new Date(dto." ++ prop.name ++ ")"
    else "      dto." ++ prop.name))

/-- `CodeGenerator._generate_to_dto_mapping`. -/
def generate_to_dto_mapping (c : GeneratorConfig) : String :=
  String.intercalate ",\n" (c.properties.map (fun prop =>
    if prop.type = "Date" then
      "      " ++ prop.name ++ ": entity." ++ prop.name ++ ".toISOString()"
    else "      " ++ prop.name ++ ": entity." ++ prop.name))

/-- `CodeGenerator._generate_model`. -/
def generate_model (c : GeneratorConfig) : String :=
  "// data/models/" ++ c.entity_name ++ "Model.ets\n\nimport \x7b " ++
  c.entity_name ++ " \x7d from \x27../../domain/entities/" ++ c.entity_name ++
  "\x27;\n\nexport interface " ++ c.entity_name ++ "DTO \x7b\n" ++
  generate_dto_properties c ++ "\n\x7d\n\nexport class " ++ c.entity_name ++
  "Mapper \x7b\n  static toDomain(dto: " ++ c.entity_name ++ "DTO): " ++
  c.entity_name ++ " \x7b\n    return new " ++ c.entity_name ++ "(\n" ++
  generate_to_domain_mapping c ++ "\n    );\n  \x7d\n  \n  static toDTO(entity: " ++
  c.entity_name ++ "): " ++ c.entity_name ++ "DTO \x7b\n    return \x7b\n" ++
  generate_to_dto_mapping c ++ "\n    \x7d;\n  \x7d\n  \n  static toDomainList(dtos: " ++
  c.entity_name ++ "DTO[]): " ++ c.entity_name ++
  "[] \x7b\n    return dtos.map(dto => this.toDomain(dto));\n  \x7d\n  \n  static toDTOList(entities: " ++
  c.entity_name ++ "[]): " ++ c.entity_name ++
  "DTO[] \x7b\n    return entities.map(entity => this.toDTO(entity));\n  \x7d\n\x7d"

/-- `CodeGenerator._generate_remote_datasource_interface`. -/
def generate_remote_datasource_interface (c : GeneratorConfig) : String :=
  "// data/datasources/I" ++ c.entity_name ++ "RemoteDataSource.ets\n\nimport \x7b " ++
  c.entity_name ++ "DTO \x7d from \x27../models/" ++ c.entity_name ++
  "Model\x27;\n\nexport interface I" ++ c.entity_name ++
  "RemoteDataSource \x7b\n  fetch" ++ entity_name_plural c ++ "(): Promise<" ++
  c.entity_name ++ "DTO[]>;\n  fetch" ++ c.entity_name ++
  "ById(id: number): Promise<" ++ c.entity_name ++ "DTO>;\n  create" ++
  c.entity_name ++ "(dto: " ++ c.entity_name ++ "DTO): Promise<" ++
  c.entity_name ++ "DTO>;\n  update" ++ c.entity_name ++ "(dto: " ++
  c.entity_name ++ "DTO): Promise<" ++ c.entity_name ++ "DTO>;\n  delete" ++
  c.entity_name ++ "(id: number): Promise<void>;\n\x7d"

/-- The text of `CodeGenerator._generate_remote_datasource_impl` up to the
interpolated endpoint value. -/
def remote_impl_before_endpoint (c : GeneratorConfig) : String :=
  "// data/datasources/" ++ c.entity_name ++
  "RemoteDataSourceImpl.ets\n\nimport http from \x27@ohos.net.http\x27;\nimport \x7b " ++
  c.entity_name ++ "DTO \x7d from \x27../models/" ++ c.entity_name ++
  "Model\x27;\nimport \x7b I" ++ c.entity_name ++
  "RemoteDataSource \x7d from \x27./I" ++ c.entity_name ++
  "RemoteDataSource\x27;\n\nexport class " ++ c.entity_name ++
  "RemoteDataSourceImpl implements I" ++ c.entity_name ++
  "RemoteDataSource \x7b\n  private baseUrl: string = \x27https://api.example.com\x27;\n  private endpoint: string = \x27"

/-- The text of `CodeGenerator._generate_remote_datasource_impl` after the
interpolated endpoint value. -/
def remote_impl_after_endpoint (c : GeneratorConfig) : String :=
  "\x27;\n  \n  async fetch" ++ entity_name_plural c ++
  "(): Promise<" ++ c.entity_name ++
  "DTO[]> \x7b\n    const response = await this.makeRequest<\x7b data: " ++
  c.entity_name ++
  "DTO[] \x7d>(\n      this.endpoint,\n      \x27GET\x27\n    );\n    return response.data;\n  \x7d\n  \n  async fetch" ++
  c.entity_name ++ "ById(id: number): Promise<" ++ c.entity_name ++
  "DTO> \x7b\n    const response = await this.makeRequest<\x7b data: " ++
  c.entity_name ++
  "DTO \x7d>(\n      \x60$\x7bthis.endpoint\x7d/$\x7bid\x7d\x60,\n      \x27GET\x27\n    );\n    return response.data;\n  \x7d\n  \n  async create" ++
  c.entity_name ++ "(dto: " ++ c.entity_name ++ "DTO): Promise<" ++
  c.entity_name ++
  "DTO> \x7b\n    const response = await this.makeRequest<\x7b data: " ++
  c.entity_name ++
  "DTO \x7d>(\n      this.endpoint,\n      \x27POST\x27,\n      dto\n    );\n    return response.data;\n  \x7d\n  \n  async update" ++
  c.entity_name ++ "(dto: " ++ c.entity_name ++ "DTO): Promise<" ++
  c.entity_name ++
  "DTO> \x7b\n    const response = await this.makeRequest<\x7b data: " ++
  c.entity_name ++
  "DTO \x7d>(\n      \x60$\x7bthis.endpoint\x7d/$\x7bdto.id\x7d\x60,\n      \x27PUT\x27,\n      dto\n    );\n    return response.data;\n  \x7d\n  \n  async delete" ++
  c.entity_name ++
  "(id: number): Promise<void> \x7b\n    await this.makeRequest<void>(\x60$\x7bthis.endpoint\x7d/$\x7bid\x7d\x60, \x27DELETE\x27);\n  \x7d\n  \n  private async makeRequest<T>(\n    endpoint: string,\n    method: string,\n    body?: Object\n  ): Promise<T> \x7b\n    return new Promise((resolve, reject) => \x7b\n      const httpRequest = http.createHttp();\n      \n      httpRequest.request(\x60$\x7bthis.baseUrl\x7d$\x7bendpoint\x7d\x60, \x7b\n        method: method as http.RequestMethod,\n        header: \x7b \x27Content-Type\x27: \x27application/json\x27 \x7d,\n        extraData: body ? JSON.stringify(body) : undefined,\n        connectTimeout: 30000,\n        readTimeout: 30000,\n      \x7d, (err, data) => \x7b\n        if (!err && (data.responseCode === 200 || data.responseCode === 201)) \x7b\n          resolve(JSON.parse(data.result as string) as T);\n        \x7d else \x7b\n          reject(new Error(err?.message || \x27Request failed\x27));\n        \x7d\n        httpRequest.destroy();\n      \x7d);\n    \x7d);\n  \x7d\n\x7d"

/-- `CodeGenerator._generate_remote_datasource_impl`: header and class
preamble, the interpolated endpoint, and the remaining methods. -/
def generate_remote_datasource_impl (c : GeneratorConfig) : String :=
  remote_impl_before_endpoint c ++ request_endpoint c ++
  remote_impl_after_endpoint c

/-- `CodeGenerator._generate_local_datasource_interface`. -/
def generate_local_datasource_interface (c : GeneratorConfig) : String :=
  "// data/datasources/I" ++ c.entity_name ++ "LocalDataSource.ets\n\nimport \x7b " ++
  c.entity_name ++ "DTO \x7d from \x27../models/" ++ c.entity_name ++
  "Model\x27;\n\nexport interface I" ++ c.entity_name ++
  "LocalDataSource \x7b\n  getCached" ++ entity_name_plural c ++ "(): Promise<" ++
  c.entity_name ++ "DTO[]>;\n  cache" ++ entity_name_plural c ++ "(dtos: " ++
  c.entity_name ++ "DTO[]): Promise<void>;\n  clearCache(): Promise<void>;\n\x7d"

/-- `CodeGenerator._generate_local_datasource_impl`. -/
def generate_local_datasource_impl (c : GeneratorConfig) : String :=
  "// data/datasources/" ++ c.entity_name ++
  "LocalDataSourceImpl.ets\n\nimport preferences from \x27@ohos.data.preferences\x27;\nimport \x7b " ++
  c.entity_name ++ "DTO \x7d from \x27../models/" ++ c.entity_name ++
  "Model\x27;\nimport \x7b I" ++ c.entity_name ++
  "LocalDataSource \x7d from \x27./I" ++ c.entity_name ++
  "LocalDataSource\x27;\n\nexport class " ++ c.entity_name ++
  "LocalDataSourceImpl implements I" ++ c.entity_name ++
  "LocalDataSource \x7b\n  private readonly CACHE_KEY = \x27" ++
  entity_name_lower c ++
  "_cache\x27;\n  private preferencesStore?: preferences.Preferences;\n  \n  async initialize(context: Context): Promise<void> \x7b\n    this.preferencesStore = await preferences.getPreferences(context, \x27app_cache\x27);\n  \x7d\n  \n  async getCached" ++
  entity_name_plural c ++ "(): Promise<" ++ c.entity_name ++
  "DTO[]> \x7b\n    if (!this.preferencesStore) \x7b\n      throw new Error(\x27DataSource not initialized\x27);\n    \x7d\n    \n    const cached = await this.preferencesStore.get(this.CACHE_KEY, \x27[]\x27);\n    return JSON.parse(cached as string) as " ++
  c.entity_name ++ "DTO[];\n  \x7d\n  \n  async cache" ++ entity_name_plural c ++
  "(dtos: " ++ c.entity_name ++
  "DTO[]): Promise<void> \x7b\n    if (!this.preferencesStore) \x7b\n      throw new Error(\x27DataSource not initialized\x27);\n    \x7d\n    \n    await this.preferencesStore.put(this.CACHE_KEY, JSON.stringify(dtos));\n    await this.preferencesStore.flush();\n  \x7d\n  \n  async clearCache(): Promise<void> \x7b\n    if (!this.preferencesStore) \x7b\n      throw new Error(\x27DataSource not initialized\x27);\n    \x7d\n    \n    await this.preferencesStore.delete(this.CACHE_KEY);\n    await this.preferencesStore.flush();\n  \x7d\n\x7d"

/-- The `cache_import` local of `CodeGenerator._generate_repository_impl`. -/
def repository_impl_cache_import (c : GeneratorConfig) : String :=
  if c.include_cache then
    "import \x7b I" ++ c.entity_name ++
    "LocalDataSource \x7d from \x27../datasources/I" ++ c.entity_name ++
    "LocalDataSource\x27;"
  else ""

/-- The `cache_constructor_param` local of
`CodeGenerator._generate_repository_impl`. -/
def repository_impl_cache_constructor_param (c : GeneratorConfig) : String :=
  if c.include_cache then
    ",\n    private localDataSource: I" ++ c.entity_name ++ "LocalDataSource"
  else ""

/-- The `cache_logic` text assigned when `include_cache` is true in
`CodeGenerator._generate_repository_impl`: try remote, cache the result, fall
back to the cached data on failure. -/
def repository_impl_fallback_logic (c : GeneratorConfig) : String :=
  "try \x7b\n      const dtos = await this.remoteDataSource.fetch" ++
  entity_name_plural c ++ "();\n      await this.localDataSource.cache" ++
  entity_name_plural c ++ "(dtos);\n      return " ++ c.entity_name ++
  "Mapper.toDomainList(dtos);\n    \x7d catch (error) \x7b\n      const cachedDtos = await this.localDataSource.getCached" ++
  entity_name_plural c ++ "();\n      return " ++ c.entity_name ++
  "Mapper.toDomainList(cachedDtos);\n    \x7d"

/-- The `cache_logic` text assigned when `include_cache` is false in
`CodeGenerator._generate_repository_impl`: direct remote call, no fallback. -/
def repository_impl_direct_logic (c : GeneratorConfig) : String :=
  "const dtos = await this.remoteDataSource.fetch" ++ entity_name_plural c ++
  "();\n    return " ++ c.entity_name ++ "Mapper.toDomainList(dtos);"

/-- The `cache_logic` local of `CodeGenerator._generate_repository_impl`. -/
def repository_impl_cache_logic (c : GeneratorConfig) : String :=
  if c.include_cache then repository_impl_fallback_logic c
  else repository_impl_direct_logic c

/-- The text of `CodeGenerator._generate_repository_impl` up to the point
where `cache_logic` is interpolated into the GetAll body. -/
def repository_impl_before_get_all (c : GeneratorConfig) : String :=
  "// data/repositories/" ++ c.entity_name ++
  "RepositoryImpl.ets\n\nimport \x7b " ++ c.entity_name ++
  " \x7d from \x27../../domain/entities/" ++ c.entity_name ++
  "\x27;\nimport \x7b I" ++ c.entity_name ++
  "Repository \x7d from \x27../../domain/repositories/I" ++ c.entity_name ++
  "Repository\x27;\nimport \x7b " ++ c.entity_name ++
  "Mapper \x7d from \x27../models/" ++ c.entity_name ++
  "Model\x27;\nimport \x7b I" ++ c.entity_name ++
  "RemoteDataSource \x7d from \x27../datasources/I" ++ c.entity_name ++
  "RemoteDataSource\x27;\n" ++ repository_impl_cache_import c ++
  "\n\nexport class " ++ c.entity_name ++ "RepositoryImpl implements I" ++
  c.entity_name ++
  "Repository \x7b\n  constructor(\n    private remoteDataSource: I" ++
  c.entity_name ++ "RemoteDataSource" ++
  repository_impl_cache_constructor_param c ++ "\n  ) \x7b\x7d\n  \n  async get" ++
  entity_name_plural c ++ "(): Promise<" ++ c.entity_name ++ "[]> \x7b\n    "

/-- The text of `CodeGenerator._generate_repository_impl` after the
interpolated `cache_logic`. -/
def repository_impl_after_get_all (c : GeneratorConfig) : String :=
  "\n  \x7d\n  \n  async get" ++ c.entity_name ++
  "ById(id: number): Promise<" ++ c.entity_name ++
  "> \x7b\n    const dto = await this.remoteDataSource.fetch" ++ c.entity_name ++
  "ById(id);\n    return " ++ c.entity_name ++
  "Mapper.toDomain(dto);\n  \x7d\n  \n  async create" ++ c.entity_name ++
  "(entity: " ++ c.entity_name ++ "): Promise<" ++ c.entity_name ++
  "> \x7b\n    const dto = " ++ c.entity_name ++
  "Mapper.toDTO(entity);\n    const createdDto = await this.remoteDataSource.create" ++
  c.entity_name ++ "(dto);\n    return " ++ c.entity_name ++
  "Mapper.toDomain(createdDto);\n  \x7d\n  \n  async update" ++ c.entity_name ++
  "(entity: " ++ c.entity_name ++ "): Promise<" ++ c.entity_name ++
  "> \x7b\n    const dto = " ++ c.entity_name ++
  "Mapper.toDTO(entity);\n    const updatedDto = await this.remoteDataSource.update" ++
  c.entity_name ++ "(dto);\n    return " ++ c.entity_name ++
  "Mapper.toDomain(updatedDto);\n  \x7d\n  \n  async delete" ++ c.entity_name ++
  "(id: number): Promise<void> \x7b\n    await this.remoteDataSource.delete" ++
  c.entity_name ++ "(id);\n  \x7d\n\x7d"

/-- `CodeGenerator._generate_repository_impl`: the banner/imports/class header,
the `cache_logic` interpolated into the GetAll body, and the remaining
methods. -/
def generate_repository_impl (c : GeneratorConfig) : String :=
  repository_impl_before_get_all c ++ repository_impl_cache_logic c ++
  repository_impl_after_get_all c

/-- The text of `CodeGenerator._generate_viewmodel` after the banner line. -/
def viewmodel_body (c : GeneratorConfig) : String :=
  "import \x7b BaseViewModel \x7d from \x27./base/BaseViewModel\x27;\nimport \x7b " ++
  c.entity_name ++ " \x7d from \x27../../domain/entities/" ++ c.entity_name ++
  "\x27;\nimport \x7b Get" ++ entity_name_plural c ++
  "UseCase \x7d from \x27../../domain/usecases/" ++ entity_name_lower c ++
  "/Get" ++ entity_name_plural c ++ "UseCase\x27;\nimport \x7b Get" ++
  c.entity_name ++ "ByIdUseCase \x7d from \x27../../domain/usecases/" ++
  entity_name_lower c ++ "/Get" ++ c.entity_name ++
  "ByIdUseCase\x27;\nimport \x7b Create" ++ c.entity_name ++
  "UseCase \x7d from \x27../../domain/usecases/" ++ entity_name_lower c ++
  "/Create" ++ c.entity_name ++ "UseCase\x27;\nimport \x7b Update" ++
  c.entity_name ++ "UseCase \x7d from \x27../../domain/usecases/" ++
  entity_name_lower c ++ "/Update" ++ c.entity_name ++
  "UseCase\x27;\nimport \x7b Delete" ++ c.entity_name ++
  "UseCase \x7d from \x27../../domain/usecases/" ++ entity_name_lower c ++
  "/Delete" ++ c.entity_name ++
  "UseCase\x27;\n\n@Observed\nexport class " ++ c.entity_name ++
  "ViewModel extends BaseViewModel \x7b\n  @State " ++ entity_name_lower c ++
  "s: " ++ c.entity_name ++ "[] = [];\n  @State selected" ++ c.entity_name ++
  ": " ++ c.entity_name ++ " | null = null;\n  \n  constructor(\n    private get" ++
  entity_name_plural c ++ "UseCase: Get" ++ entity_name_plural c ++
  "UseCase,\n    private get" ++ c.entity_name ++ "ByIdUseCase: Get" ++
  c.entity_name ++ "ByIdUseCase,\n    private create" ++ c.entity_name ++
  "UseCase: Create" ++ c.entity_name ++ "UseCase,\n    private update" ++
  c.entity_name ++ "UseCase: Update" ++ c.entity_name ++
  "UseCase,\n    private delete" ++ c.entity_name ++ "UseCase: Delete" ++
  c.entity_name ++
  "UseCase\n  ) \x7b\n    super();\n  \x7d\n  \n  async load" ++
  entity_name_plural c ++
  "(): Promise<void> \x7b\n    await this.executeUseCase(\n      () => this.get" ++
  entity_name_plural c ++ "UseCase.execute(),\n      (result) => \x7b\n        this." ++
  entity_name_lower c ++
  "s = result;\n      \x7d\n    );\n  \x7d\n  \n  async load" ++ c.entity_name ++
  "ById(id: number): Promise<void> \x7b\n    await this.executeUseCase(\n      () => this.get" ++
  c.entity_name ++
  "ByIdUseCase.execute(id),\n      (result) => \x7b\n        this.selected" ++
  c.entity_name ++
  " = result;\n      \x7d\n    );\n  \x7d\n  \n  async create" ++ c.entity_name ++
  "(" ++ get_create_params c ++
  "): Promise<boolean> \x7b\n    let success = false;\n    await this.executeUseCase(\n      () => this.create" ++
  c.entity_name ++ "UseCase.execute(" ++ get_create_args c ++
  "),\n      (result) => \x7b\n        this." ++ entity_name_lower c ++
  "s.push(result);\n        success = true;\n      \x7d\n    );\n    return success;\n  \x7d\n  \n  async update" ++
  c.entity_name ++ "(id: number, updates: Partial<" ++ c.entity_name ++
  ">): Promise<boolean> \x7b\n    let success = false;\n    await this.executeUseCase(\n      () => this.update" ++
  c.entity_name ++
  "UseCase.execute(id, updates),\n      (result) => \x7b\n        const index = this." ++
  entity_name_lower c ++
  "s.findIndex(e => e.id === id);\n        if (index !== -1) \x7b\n          this." ++
  entity_name_lower c ++
  "s[index] = result;\n        \x7d\n        success = true;\n      \x7d\n    );\n    return success;\n  \x7d\n  \n  async delete" ++
  c.entity_name ++
  "(id: number): Promise<boolean> \x7b\n    let success = false;\n    await this.executeUseCase(\n      () => this.delete" ++
  c.entity_name ++ "UseCase.execute(id),\n      () => \x7b\n        this." ++
  entity_name_lower c ++ "s = this." ++ entity_name_lower c ++
  "s.filter(e => e.id !== id);\n        success = true;\n      \x7d\n    );\n    return success;\n  \x7d\n  \n  select" ++
  c.entity_name ++ "(entity: " ++ c.entity_name ++
  "): void \x7b\n    this.selected" ++ c.entity_name ++
  " = entity;\n  \x7d\n  \n  clearSelected(): void \x7b\n    this.selected" ++
  c.entity_name ++
  " = null;\n  \x7d\n  \n  onDestroy(): void \x7b\n    this." ++
  entity_name_lower c ++ "s = [];\n    this.selected" ++ c.entity_name ++
  " = null;\n  \x7d\n\x7d"

/-- `CodeGenerator._generate_viewmodel`: banner line plus body. -/
def generate_viewmodel (c : GeneratorConfig) : String :=
  "// presentation/viewmodels/" ++ c.entity_name ++ "ViewModel.ets\n\n" ++
  viewmodel_body c

/-- The `first_prop` local of `CodeGenerator._generate_page` (Python's
`next(..., None)` over the property list). -/
def page_first_prop (c : GeneratorConfig) : Option PropertyConfig :=
  c.properties.find? (fun p => p.type == "string" && p.name != "id")

/-- The `second_prop` local of `CodeGenerator._generate_page`. -/
def page_second_prop (c : GeneratorConfig) : Option PropertyConfig :=
  let fn := match page_first_prop c with
    | some p => p.name
    | none => ""
  c.properties.find? (fun p => p.type == "string" && p.name != "id" && p.name != fn)

/-- The `first_display` local of `CodeGenerator._generate_page`. -/
def page_first_display (c : GeneratorConfig) : String :=
  match page_first_prop c with
  | some p => p.name
  | none => "name"

/-- The `second_display_code` local of `CodeGenerator._generate_page`. -/
def page_second_display_code (c : GeneratorConfig) : String :=
  match page_second_prop c with
  | some p =>
      "\n        Text(entity." ++ p.name ++
      ")\n          .fontSize(14)\n          .fontColor($r(\x27app.color.text_secondary\x27))"
  | none => ""

/-- The text of `CodeGenerator._generate_page` after the banner line. -/
def page_body (c : GeneratorConfig) : String :=
  "import \x7b " ++ c.entity_name ++
  "ViewModel \x7d from \x27../../viewmodels/" ++ c.entity_name ++
  "ViewModel\x27;\nimport \x7b " ++ c.entity_name ++
  " \x7d from \x27../../../domain/entities/" ++ c.entity_name ++
  "\x27;\nimport \x7b AppContainer \x7d from \x27../../../di/AppContainer\x27;\nimport promptAction from \x27@ohos.promptAction\x27;\n\n@Entry\n@Component\nstruct " ++
  c.entity_name ++
  "Page \x7b\n  private container: AppContainer = AppContainer.getInstance();\n  @State private viewModel: " ++
  c.entity_name ++ "ViewModel = this.container.create" ++ c.entity_name ++
  "ViewModel();\n  \n  aboutToAppear() \x7b\n    this.viewModel.load" ++
  entity_name_plural c ++
  "();\n  \x7d\n  \n  aboutToDisappear() \x7b\n    this.viewModel.onDestroy();\n  \x7d\n  \n  @Builder\n  " ++
  c.entity_name ++ "ListItem(entity: " ++ c.entity_name ++
  ") \x7b\n    Row() \x7b\n      Column(\x7b space: 4 \x7d) \x7b\n        Text(entity." ++
  page_first_display c ++
  ")\n          .fontSize(16)\n          .fontWeight(FontWeight.Medium)\n          .fontColor($r(\x27app.color.text_primary\x27))" ++
  page_second_display_code c ++
  "\n      \x7d\n      .alignItems(HorizontalAlign.Start)\n      .layoutWeight(1)\n      \n      Button(\x27Deletar\x27)\n        .fontSize(14)\n        .onClick(async () => \x7b\n          const success = await this.viewModel.delete" ++
  c.entity_name ++
  "(entity.id);\n          if (success) \x7b\n            promptAction.showToast(\x7b message: \x27Deletado com sucesso\x27, duration: 2000 \x7d);\n          \x7d\n        \x7d)\n    \x7d\n    .width(\x27100%\x27)\n    .padding(16)\n    .backgroundColor(Color.White)\n    .borderRadius(8)\n    .onClick(() => \x7b\n      this.viewModel.select" ++
  c.entity_name ++
  "(entity);\n    \x7d)\n  \x7d\n  \n  @Builder\n  EmptyState() \x7b\n    Column(\x7b space: 16 \x7d) \x7b\n      Text(\x27Nenhum registro encontrado\x27)\n        .fontSize(16)\n        .fontColor($r(\x27app.color.text_secondary\x27))\n      \n      Button(\x27Recarregar\x27)\n        .onClick(() => \x7b\n          this.viewModel.load" ++
  entity_name_plural c ++
  "();\n        \x7d)\n    \x7d\n    .width(\x27100%\x27)\n    .height(\x27100%\x27)\n    .justifyContent(FlexAlign.Center)\n  \x7d\n  \n  build() \x7b\n    Navigation() \x7b\n      Column() \x7b\n        if (this.viewModel.isLoading && this.viewModel." ++
  entity_name_lower c ++
  "s.length === 0) \x7b\n          LoadingProgress()\n            .width(60)\n            .height(60)\n        \x7d else if (this.viewModel.errorMessage) \x7b\n          Text(this.viewModel.errorMessage)\n            .fontSize(16)\n            .fontColor(Color.Red)\n            .padding(16)\n        \x7d else if (this.viewModel." ++
  entity_name_lower c ++
  "s.length === 0) \x7b\n          this.EmptyState();\n        \x7d else \x7b\n          List(\x7b space: 8 \x7d) \x7b\n            ForEach(\n              this.viewModel." ++
  entity_name_lower c ++
  "s,\n              (entity: " ++ c.entity_name ++
  ") => \x7b\n                ListItem() \x7b\n                  this." ++
  c.entity_name ++
  "ListItem(entity);\n                \x7d\n              \x7d,\n              (entity: " ++
  c.entity_name ++
  ") => entity.id.toString()\n            )\n          \x7d\n          .width(\x27100%\x27)\n          .layoutWeight(1)\n          .padding(16)\n        \x7d\n      \x7d\n      .width(\x27100%\x27)\n      .height(\x27100%\x27)\n    \x7d\n    .title(\x27" ++
  c.entity_name ++
  "s\x27)\n    .titleMode(NavigationTitleMode.Mini)\n  \x7d\n\x7d"

/-- `CodeGenerator._generate_page`: banner line plus body. -/
def generate_page (c : GeneratorConfig) : String :=
  "// presentation/views/pages/" ++ c.entity_name ++ "Page.ets\n\n" ++
  page_body c

/-- `CodeGenerator._generate_simple_model` (delegates to `_generate_entity`). -/
def generate_simple_model (c : GeneratorConfig) : String :=
  generate_entity c

/-- The text of `CodeGenerator._generate_simple_repository` up to the
interpolated endpoint value. -/
def simple_repository_before_endpoint (c : GeneratorConfig) : String :=
  "// data/repositories/" ++ c.entity_name ++
  "Repository.ets\n\nimport \x7b " ++ c.entity_name ++
  " \x7d from \x27../models/" ++ c.entity_name ++
  "\x27;\nimport \x7b ApiService \x7d from \x27../datasources/remote/ApiService\x27;\n\nexport class " ++
  c.entity_name ++
  "Repository \x7b\n  private apiService: ApiService = new ApiService();\n  private endpoint: string = \x27"

/-- The text of `CodeGenerator._generate_simple_repository` after the
interpolated endpoint value. -/
def simple_repository_after_endpoint (c : GeneratorConfig) : String :=
  "\x27;\n  \n  async get" ++ entity_name_plural c ++
  "(): Promise<" ++ c.entity_name ++
  "[]> \x7b\n    const response = await this.apiService.get<\x7b data: Record<string, Object>[] \x7d>(this.endpoint);\n    return response.data.map(data => " ++
  c.entity_name ++ ".fromJson(data));\n  \x7d\n  \n  async get" ++
  c.entity_name ++ "ById(id: number): Promise<" ++ c.entity_name ++
  "> \x7b\n    const response = await this.apiService.get<\x7b data: Record<string, Object> \x7d>(\x60$\x7bthis.endpoint\x7d/$\x7bid\x7d\x60);\n    return " ++
  c.entity_name ++ ".fromJson(response.data);\n  \x7d\n  \n  async create" ++
  c.entity_name ++ "(entity: " ++ c.entity_name ++ "): Promise<" ++
  c.entity_name ++
  "> \x7b\n    const response = await this.apiService.post<\x7b data: Record<string, Object> \x7d>(\n      this.endpoint,\n      entity.toJson()\n    );\n    return " ++
  c.entity_name ++ ".fromJson(response.data);\n  \x7d\n  \n  async update" ++
  c.entity_name ++ "(entity: " ++ c.entity_name ++ "): Promise<" ++
  c.entity_name ++
  "> \x7b\n    const response = await this.apiService.put<\x7b data: Record<string, Object> \x7d>(\n      \x60$\x7bthis.endpoint\x7d/$\x7bentity.id\x7d\x60,\n      entity.toJson()\n    );\n    return " ++
  c.entity_name ++ ".fromJson(response.data);\n  \x7d\n  \n  async delete" ++
  c.entity_name ++
  "(id: number): Promise<void> \x7b\n    await this.apiService.delete<void>(\x60$\x7bthis.endpoint\x7d/$\x7bid\x7d\x60);\n  \x7d\n\x7d"

/-- `CodeGenerator._generate_simple_repository`: header and class preamble,
the interpolated endpoint, and the remaining methods. -/
def generate_simple_repository (c : GeneratorConfig) : String :=
  simple_repository_before_endpoint c ++ request_endpoint c ++
  simple_repository_after_endpoint c

/-- `CodeGenerator._generate_simple_viewmodel`. -/
def generate_simple_viewmodel (c : GeneratorConfig) : String :=
  "// viewmodels/" ++ c.entity_name ++
  "ViewModel.ets\n\nimport \x7b BaseViewModel \x7d from \x27./base/BaseViewModel\x27;\nimport \x7b " ++
  c.entity_name ++ " \x7d from \x27../data/models/" ++ c.entity_name ++
  "\x27;\nimport \x7b " ++ c.entity_name ++
  "Repository \x7d from \x27../data/repositories/" ++ c.entity_name ++
  "Repository\x27;\n\n@Observed\nexport class " ++ c.entity_name ++
  "ViewModel extends BaseViewModel \x7b\n  @State " ++ entity_name_lower c ++
  "s: " ++ c.entity_name ++ "[] = [];\n  @State selected" ++ c.entity_name ++
  ": " ++ c.entity_name ++ " | null = null;\n  \n  private repository: " ++
  c.entity_name ++ "Repository = new " ++ c.entity_name ++
  "Repository();\n  \n  async load" ++ entity_name_plural c ++
  "(): Promise<void> \x7b\n    await this.executeAsync(\n      () => this.repository.get" ++
  entity_name_plural c ++ "(),\n      (result) => \x7b\n        this." ++
  entity_name_lower c ++
  "s = result;\n      \x7d\n    );\n  \x7d\n  \n  async create" ++ c.entity_name ++
  "(" ++ get_create_params c ++
  "): Promise<boolean> \x7b\n    let success = false;\n    const entity = new " ++
  c.entity_name ++ "(0, " ++ get_create_args c ++
  ");\n    \n    await this.executeAsync(\n      () => this.repository.create" ++
  c.entity_name ++ "(entity),\n      (result) => \x7b\n        this." ++
  entity_name_lower c ++
  "s.push(result);\n        success = true;\n      \x7d\n    );\n    return success;\n  \x7d\n  \n  async delete" ++
  c.entity_name ++
  "(id: number): Promise<boolean> \x7b\n    let success = false;\n    await this.executeAsync(\n      () => this.repository.delete" ++
  c.entity_name ++ "(id),\n      () => \x7b\n        this." ++
  entity_name_lower c ++ "s = this." ++ entity_name_lower c ++
  "s.filter(e => e.id !== id);\n        success = true;\n      \x7d\n    );\n    return success;\n  \x7d\n  \n  onDestroy(): void \x7b\n    this." ++
  entity_name_lower c ++ "s = [];\n    this.selected" ++ c.entity_name ++
  " = null;\n  \x7d\n\x7d"

/-- `CodeGenerator._generate_simple_page` (delegates to `_generate_page`). -/
def generate_simple_page (c : GeneratorConfig) : String :=
  generate_page c

/-- Output path of the domain entity file (CLEAN). -/
def entity_path (c : GeneratorConfig) : String :=
  "domain/entities/" ++ c.entity_name ++ ".ets"

/-- Output path of the repository interface file (CLEAN). -/
def repository_interface_path (c : GeneratorConfig) : String :=
  "domain/repositories/I" ++ c.entity_name ++ "Repository.ets"

/-- Output path of the GetAll use-case file (CLEAN). -/
def get_all_usecase_path (c : GeneratorConfig) : String :=
  "domain/usecases/" ++ entity_name_lower c ++ "/Get" ++ entity_name_plural c ++
  "UseCase.ets"

/-- Output path of the GetById use-case file (CLEAN). -/
def get_by_id_usecase_path (c : GeneratorConfig) : String :=
  "domain/usecases/" ++ entity_name_lower c ++ "/Get" ++ c.entity_name ++
  "ByIdUseCase.ets"

/-- Output path of the Create use-case file (CLEAN). -/
def create_usecase_path (c : GeneratorConfig) : String :=
  "domain/usecases/" ++ entity_name_lower c ++ "/Create" ++ c.entity_name ++
  "UseCase.ets"

/-- Output path of the Update use-case file (CLEAN). -/
def update_usecase_path (c : GeneratorConfig) : String :=
  "domain/usecases/" ++ entity_name_lower c ++ "/Update" ++ c.entity_name ++
  "UseCase.ets"

/-- Output path of the Delete use-case file (CLEAN). -/
def delete_usecase_path (c : GeneratorConfig) : String :=
  "domain/usecases/" ++ entity_name_lower c ++ "/Delete" ++ c.entity_name ++
  "UseCase.ets"

/-- Output path of the DTO/mapper model file (CLEAN). -/
def model_path (c : GeneratorConfig) : String :=
  "data/models/" ++ c.entity_name ++ "Model.ets"

/-- Output path of the remote datasource interface file (CLEAN). -/
def remote_interface_path (c : GeneratorConfig) : String :=
  "data/datasources/I" ++ c.entity_name ++ "RemoteDataSource.ets"

/-- Output path of the remote datasource implementation file (CLEAN). -/
def remote_impl_path (c : GeneratorConfig) : String :=
  "data/datasources/" ++ c.entity_name ++ "RemoteDataSourceImpl.ets"

/-- Output path of the local datasource interface file (CLEAN, cache only). -/
def local_interface_path (c : GeneratorConfig) : String :=
  "data/datasources/I" ++ c.entity_name ++ "LocalDataSource.ets"

/-- Output path of the local datasource implementation file (CLEAN, cache only). -/
def local_impl_path (c : GeneratorConfig) : String :=
  "data/datasources/" ++ c.entity_name ++ "LocalDataSourceImpl.ets"

/-- Output path of the repository implementation file (CLEAN). -/
def repository_impl_path (c : GeneratorConfig) : String :=
  "data/repositories/" ++ c.entity_name ++ "RepositoryImpl.ets"

/-- Output path of the view-model file (CLEAN). -/
def viewmodel_path (c : GeneratorConfig) : String :=
  "presentation/viewmodels/" ++ c.entity_name ++ "ViewModel.ets"

/-- Output path of the page file (CLEAN). -/
def page_path (c : GeneratorConfig) : String :=
  "presentation/views/pages/" ++ c.entity_name ++ "Page.ets"

/-- Output path of the model file (MVVM). -/
def simple_model_path (c : GeneratorConfig) : String :=
  "data/models/" ++ c.entity_name ++ ".ets"

/-- Output path of the repository file (MVVM). -/
def simple_repository_path (c : GeneratorConfig) : String :=
  "data/repositories/" ++ c.entity_name ++ "Repository.ets"

/-- Output path of the view-model file (MVVM). -/
def simple_viewmodel_path (c : GeneratorConfig) : String :=
  "viewmodels/" ++ c.entity_name ++ "ViewModel.ets"

/-- Output path of the page file (MVVM). -/
def simple_page_path (c : GeneratorConfig) : String :=
  "views/pages/" ++ c.entity_name ++ "Page.ets"

/-- `CodeGenerator.generate_all`: the file map in insertion order.  The Python
code tests `architecture == 'clean'` and otherwise falls into the MVVM branch;
with caching enabled the two local-datasource entries are inserted between the
remote datasource implementation and the repository implementation. -/
def generate_all (c : GeneratorConfig) : List (String × String) :=
  if c.architecture = "clean" then
    [(entity_path c, generate_entity c),
     (repository_interface_path c, generate_repository_interface c),
     (get_all_usecase_path c, generate_get_all_usecase c),
     (get_by_id_usecase_path c, generate_get_by_id_usecase c),
     (create_usecase_path c, generate_create_usecase c),
     (update_usecase_path c, generate_update_usecase c),
     (delete_usecase_path c, generate_delete_usecase c),
     (model_path c, generate_model c),
     (remote_interface_path c, generate_remote_datasource_interface c),
     (remote_impl_path c, generate_remote_datasource_impl c)] ++
    (if c.include_cache then
      [(local_interface_path c, generate_local_datasource_interface c),
       (local_impl_path c, generate_local_datasource_impl c)]
     else []) ++
    [(repository_impl_path c, generate_repository_impl c),
     (viewmodel_path c, generate_viewmodel c),
     (page_path c, generate_page c)]
  else
    [(simple_model_path c, generate_simple_model c),
     (simple_repository_path c, generate_simple_repository c),
     (simple_viewmodel_path c, generate_simple_viewmodel c),
     (simple_page_path c, generate_simple_page c)]

/-- The relative paths (dict keys, in insertion order) of a generated file map. -/
def file_paths (c : GeneratorConfig) : List String :=
  (generate_all c).map Prod.fst

/-- The `id` property that `GeneratorCLI._parse_config` synthesizes when the
caller-supplied list has no property named `id`. -/
def synthesized_id_property : PropertyConfig :=
  { name := "id", type := "number", optional := false, validation := [] }

/-- The property-list adjustment in `GeneratorCLI._parse_config`: when no
property is named `id`, one is inserted at position 0; otherwise the list is
passed through unchanged. -/
def parse_config_properties (properties : List PropertyConfig) : List PropertyConfig :=
  if properties.any (fun p => p.name = "id") then properties
  else synthesized_id_property :: properties

/-- Concrete schema of the end-to-end scenario: entity `User` with properties
`id:number`, `name:string`, `email:string?`, CLEAN architecture, no cache, no
validation. -/
def userConfig : GeneratorConfig :=
  { entity_name := "User",
    properties :=
      [{ name := "id", type := "number", optional := false, validation := [] },
       { name := "name", type := "string", optional := false, validation := [] },
       { name := "email", type := "string", optional := true, validation := [] }],
    include_cache := false,
    include_validation := false,
    architecture := "clean" }

/-- The same scenario schema with `includeCache` enabled. -/
def userConfigCache : GeneratorConfig :=
  { userConfig with include_cache := true }

/-- A schema whose entity name has an interior capital letter. -/
def blogPostConfig : GeneratorConfig :=
  { entity_name := "BlogPost",
    properties :=
      [{ name := "id", type := "number", optional := false, validation := [] },
       { name := "title", type := "string", optional := false, validation := [] }],
    include_cache := false,
    include_validation := false,
    architecture := "clean" }

/-- A schema whose lowercased entity name ends in `y`, so its plural form and
its naive `s`-append differ. -/
def categoryConfig : GeneratorConfig :=
  { entity_name := "Category",
    properties :=
      [{ name := "id", type := "number", optional := false, validation := [] },
       { name := "name", type := "string", optional := false, validation := [] }],
    include_cache := false,
    include_validation := false,
    architecture := "clean" }

/-- A schema carrying an architecture value outside `{clean, mvvm}`. -/
def bogusArchConfig : GeneratorConfig :=
  { entity_name := "User",
    properties :=
      [{ name := "id", type := "number", optional := false, validation := [] },
       { name := "name", type := "string", optional := false, validation := [] }],
    include_cache := false,
    include_validation := false,
    architecture := "flutter" }

/-- The scenario schema in MVVM mode. -/
def userMvvmConfig : GeneratorConfig :=
  { userConfig with architecture := "mvvm" }

/-- A caller-supplied property that is not named `id`. -/
def titleProperty : PropertyConfig :=
  { name := "title", type := "string", optional := false, validation := [] }

/-- A caller-supplied property named `id` but typed `string` and optional,
placed after another property. -/
def badIdProperty : PropertyConfig :=
  { name := "id", type := "string", optional := true, validation := [] }

/-- A rule list and property used to exercise the validation generator. -/
def requiredRule : ValidationRule :=
  { type := ValidationType.required, value := none, message := none }

/-- A MIN_LENGTH rule with payload 5 used to exercise the validation generator. -/
def minLengthRule : ValidationRule :=
  { type := ValidationType.min_length, value := some "5", message := none }

/-- An optional string property carrying a MIN_LENGTH rule. -/
def optionalTitleProperty : PropertyConfig :=
  { name := "title", type := "string", optional := true,
    validation := [minLengthRule] }

/-!
Helper lemmas about strings, used to separate generated paths and text
fragments from one another.
-/

/-- Strings with different lengths are different. -/
theorem str_ne_of_length_ne {s t : String} (h : s.length ≠ t.length) : s ≠ t :=
  fun he => h (he ▸ rfl)

/-- String append is associative. -/
theorem str_append_assoc (a b c : String) : a ++ b ++ c = a ++ (b ++ c) := by
  apply String.ext
  simp [String.data_append, List.append_assoc]

/-- Indexing an appended string inside its left part. -/
theorem data_getElem?_left (a r : String) (k : Nat) (h : k < a.data.length) :
    (a ++ r).data[k]? = a.data[k]? := by
  rw [String.data_append]
  exact List.getElem?_append_left h

/-- Two appended strings whose left parts differ at a common index are
different, whatever their right parts are. -/
theorem path_ne_of_const_ne {a₁ a₂ : String} (r₁ r₂ : String) (k : Nat)
    (h₁ : k < a₁.data.length) (h₂ : k < a₂.data.length)
    (h : a₁.data[k]? ≠ a₂.data[k]?) : a₁ ++ r₁ ≠ a₂ ++ r₂ := by
  intro he
  apply h
  rw [← data_getElem?_left a₁ r₁ k h₁, ← data_getElem?_left a₂ r₂ k h₂, he]

/-- Appending a common left part preserves string inequality. -/
theorem str_append_right_ne (a : String) {r₁ r₂ : String} (h : r₁ ≠ r₂) :
    a ++ r₁ ≠ a ++ r₂ := by
  intro he
  apply h
  apply String.ext
  have hd : a.data ++ r₁.data = a.data ++ r₂.data := by
    rw [← String.data_append, ← String.data_append, he]
  exact List.append_cancel_left hd

/-- Appending a common left part preserves the list-prefix relation. -/
theorem prefix_append_congr {α : Type} {a r₁ r₂ : List α} (h : r₁ <+: r₂) :
    a ++ r₁ <+: a ++ r₂ := by
  obtain ⟨t, ht⟩ := h
  exact ⟨t, by rw [List.append_assoc, ht]⟩

/-- A data-level prefix gives a banner decomposition of the whole text. -/
theorem banner_of_data_prefix {path text : String}
    (h : ("// " ++ path).data <+: text.data) :
    ∃ r, text = "// " ++ path ++ r := by
  obtain ⟨t, ht⟩ := h
  refine ⟨String.mk t, ?_⟩
  apply String.ext
  rw [String.data_append]
  exact ht.symm

/-- Extending a split decomposition by further appended text on the right. -/
theorem exists_split_extend_right {s y e : String}
    (h : ∃ a b, s = a ++ e ++ b) : ∃ a b, s ++ y = a ++ e ++ b := by
  obtain ⟨a, b, rfl⟩ := h
  exact ⟨a, b ++ y, by rw [str_append_assoc (a ++ e) b y]⟩

/-- The CLEAN file paths without caching, in insertion order. -/
theorem file_paths_clean_nocache (c : GeneratorConfig)
    (hc : c.architecture = "clean") (hk : c.include_cache = false) :
    file_paths c =
      [entity_path c, repository_interface_path c, get_all_usecase_path c,
       get_by_id_usecase_path c, create_usecase_path c, update_usecase_path c,
       delete_usecase_path c, model_path c, remote_interface_path c,
       remote_impl_path c, repository_impl_path c, viewmodel_path c,
       page_path c] := by
  simp [file_paths, generate_all, hc, hk]

/-- The CLEAN file paths with caching, in insertion order. -/
theorem file_paths_clean_cache (c : GeneratorConfig)
    (hc : c.architecture = "clean") (hk : c.include_cache = true) :
    file_paths c =
      [entity_path c, repository_interface_path c, get_all_usecase_path c,
       get_by_id_usecase_path c, create_usecase_path c, update_usecase_path c,
       delete_usecase_path c, model_path c, remote_interface_path c,
       remote_impl_path c, local_interface_path c, local_impl_path c,
       repository_impl_path c, viewmodel_path c, page_path c] := by
  simp [file_paths, generate_all, hc, hk]

/-- The MVVM file paths (any non-clean architecture), in insertion order. -/
theorem file_paths_nonclean (c : GeneratorConfig)
    (hc : ¬ (c.architecture = "clean")) :
    file_paths c =
      [simple_model_path c, simple_repository_path c, simple_viewmodel_path c,
       simple_page_path c] := by
  simp [file_paths, generate_all, hc]

/-- The local datasource interface path differs from the entity path. -/
theorem local_interface_ne_entity (c : GeneratorConfig) :
    local_interface_path c ≠ entity_path c := by
  simp only [local_interface_path, entity_path, str_append_assoc]
  exact path_ne_of_const_ne _ _ 1 (by decide) (by decide) (by decide)

/-- The local datasource interface path differs from the repository interface
path. -/
theorem local_interface_ne_repository_interface (c : GeneratorConfig) :
    local_interface_path c ≠ repository_interface_path c := by
  simp only [local_interface_path, repository_interface_path, str_append_assoc]
  exact path_ne_of_const_ne _ _ 1 (by decide) (by decide) (by decide)

/-- The local datasource interface path differs from the GetAll use-case path. -/
theorem local_interface_ne_get_all (c : GeneratorConfig) :
    local_interface_path c ≠ get_all_usecase_path c := by
  simp only [local_interface_path, get_all_usecase_path, str_append_assoc]
  exact path_ne_of_const_ne _ _ 1 (by decide) (by decide) (by decide)

/-- The local datasource interface path differs from the GetById use-case path. -/
theorem local_interface_ne_get_by_id (c : GeneratorConfig) :
    local_interface_path c ≠ get_by_id_usecase_path c := by
  simp only [local_interface_path, get_by_id_usecase_path, str_append_assoc]
  exact path_ne_of_const_ne _ _ 1 (by decide) (by decide) (by decide)

/-- The local datasource interface path differs from the Create use-case path. -/
theorem local_interface_ne_create (c : GeneratorConfig) :
    local_interface_path c ≠ create_usecase_path c := by
  simp only [local_interface_path, create_usecase_path, str_append_assoc]
  exact path_ne_of_const_ne _ _ 1 (by decide) (by decide) (by decide)

/-- The local datasource interface path differs from the Update use-case path. -/
theorem local_interface_ne_update (c : GeneratorConfig) :
    local_interface_path c ≠ update_usecase_path c := by
  simp only [local_interface_path, update_usecase_path, str_append_assoc]
  exact path_ne_of_const_ne _ _ 1 (by decide) (by decide) (by decide)

/-- The local datasource interface path differs from the Delete use-case path. -/
theorem local_interface_ne_delete (c : GeneratorConfig) :
    local_interface_path c ≠ delete_usecase_path c := by
  simp only [local_interface_path, delete_usecase_path, str_append_assoc]
  exact path_ne_of_const_ne _ _ 1 (by decide) (by decide) (by decide)

/-- The local datasource interface path differs from the model path. -/
theorem local_interface_ne_model (c : GeneratorConfig) :
    local_interface_path c ≠ model_path c := by
  simp only [local_interface_path, model_path, str_append_assoc]
  exact path_ne_of_const_ne _ _ 5 (by decide) (by decide) (by decide)

/-- The local datasource interface path differs from the remote datasource
interface path. -/
theorem local_interface_ne_remote_interface (c : GeneratorConfig) :
    local_interface_path c ≠ remote_interface_path c := by
  simp only [local_interface_path, remote_interface_path, str_append_assoc]
  apply str_append_right_ne
  apply str_append_right_ne
  decide

/-- The local datasource interface path differs from the remote datasource
implementation path. -/
theorem local_interface_ne_remote_impl (c : GeneratorConfig) :
    local_interface_path c ≠ remote_impl_path c := by
  apply str_ne_of_length_ne
  simp only [local_interface_path, remote_impl_path, String.length_append,
    (by decide : ("data/datasources/I" : String).length = 18),
    (by decide : ("LocalDataSource.ets" : String).length = 19),
    (by decide : ("data/datasources/" : String).length = 17),
    (by decide : ("RemoteDataSourceImpl.ets" : String).length = 24)]
  omega

/-- The local datasource interface path differs from the repository
implementation path. -/
theorem local_interface_ne_repository_impl (c : GeneratorConfig) :
    local_interface_path c ≠ repository_impl_path c := by
  simp only [local_interface_path, repository_impl_path, str_append_assoc]
  exact path_ne_of_const_ne _ _ 5 (by decide) (by decide) (by decide)

/-- The local datasource interface path differs from the view-model path. -/
theorem local_interface_ne_viewmodel (c : GeneratorConfig) :
    local_interface_path c ≠ viewmodel_path c := by
  simp only [local_interface_path, viewmodel_path, str_append_assoc]
  exact path_ne_of_const_ne _ _ 0 (by decide) (by decide) (by decide)

/-- The local datasource interface path differs from the page path. -/
theorem local_interface_ne_page (c : GeneratorConfig) :
    local_interface_path c ≠ page_path c := by
  simp only [local_interface_path, page_path, str_append_assoc]
  exact path_ne_of_const_ne _ _ 0 (by decide) (by decide) (by decide)

/-- The local datasource interface path differs from the MVVM model path. -/
theorem local_interface_ne_simple_model (c : GeneratorConfig) :
    local_interface_path c ≠ simple_model_path c := by
  simp only [local_interface_path, simple_model_path, str_append_assoc]
  exact path_ne_of_const_ne _ _ 5 (by decide) (by decide) (by decide)

/-- The local datasource interface path differs from the MVVM repository path. -/
theorem local_interface_ne_simple_repository (c : GeneratorConfig) :
    local_interface_path c ≠ simple_repository_path c := by
  simp only [local_interface_path, simple_repository_path, str_append_assoc]
  exact path_ne_of_const_ne _ _ 5 (by decide) (by decide) (by decide)

/-- The local datasource interface path differs from the MVVM view-model path. -/
theorem local_interface_ne_simple_viewmodel (c : GeneratorConfig) :
    local_interface_path c ≠ simple_viewmodel_path c := by
  simp only [local_interface_path, simple_viewmodel_path, str_append_assoc]
  exact path_ne_of_const_ne _ _ 0 (by decide) (by decide) (by decide)

/-- The local datasource interface path differs from the MVVM page path. -/
theorem local_interface_ne_simple_page (c : GeneratorConfig) :
    local_interface_path c ≠ simple_page_path c := by
  simp only [local_interface_path, simple_page_path, str_append_assoc]
  exact path_ne_of_const_ne _ _ 0 (by decide) (by decide) (by decide)

/-- The direct GetAll logic never coincides with the fallback logic. -/
theorem direct_ne_fallback (c : GeneratorConfig) :
    repository_impl_direct_logic c ≠ repository_impl_fallback_logic c := by
  simp only [repository_impl_direct_logic, repository_impl_fallback_logic,
    str_append_assoc]
  exact path_ne_of_const_ne _ _ 0 (by decide) (by decide) (by decide)

/-- The entity file text begins with a banner naming the entity path. -/
theorem banner_entity (c : GeneratorConfig) :
    ∃ r, generate_entity c = "// " ++ entity_path c ++ r := by
  apply banner_of_data_prefix
  simp only [generate_entity, entity_path, String.data_append,
    List.append_assoc, List.cons_append, List.nil_append]
  simp only [List.cons_prefix_cons, true_and]
  apply prefix_append_congr
  simp only [List.cons_prefix_cons, true_and]
  exact List.nil_prefix

/-- The repository interface file text begins with a banner naming its path. -/
theorem banner_repository_interface (c : GeneratorConfig) :
    ∃ r, generate_repository_interface c =
      "// " ++ repository_interface_path c ++ r := by
  apply banner_of_data_prefix
  simp only [generate_repository_interface, repository_interface_path,
    String.data_append, List.append_assoc, List.cons_append, List.nil_append]
  simp only [List.cons_prefix_cons, true_and]
  apply prefix_append_congr
  simp only [List.cons_prefix_cons, true_and]
  exact List.nil_prefix

/-- The GetAll use-case file text begins with a banner naming its path. -/
theorem banner_get_all_usecase (c : GeneratorConfig) :
    ∃ r, generate_get_all_usecase c = "// " ++ get_all_usecase_path c ++ r := by
  apply banner_of_data_prefix
  simp only [generate_get_all_usecase, get_all_usecase_path,
    String.data_append, List.append_assoc, List.cons_append, List.nil_append]
  simp only [List.cons_prefix_cons, true_and]
  apply prefix_append_congr
  simp only [List.cons_prefix_cons, true_and]
  apply prefix_append_congr
  simp only [List.cons_prefix_cons, true_and]
  exact List.nil_prefix

/-- The GetById use-case file text begins with a banner naming its path. -/
theorem banner_get_by_id_usecase (c : GeneratorConfig) :
    ∃ r, generate_get_by_id_usecase c =
      "// " ++ get_by_id_usecase_path c ++ r := by
  apply banner_of_data_prefix
  simp only [generate_get_by_id_usecase, get_by_id_usecase_path,
    String.data_append, List.append_assoc, List.cons_append, List.nil_append]
  simp only [List.cons_prefix_cons, true_and]
  apply prefix_append_congr
  simp only [List.cons_prefix_cons, true_and]
  apply prefix_append_congr
  simp only [List.cons_prefix_cons, true_and]
  exact List.nil_prefix

/-- The Create use-case file text begins with a banner naming its path. -/
theorem banner_create_usecase (c : GeneratorConfig) :
    ∃ r, generate_create_usecase c = "// " ++ create_usecase_path c ++ r := by
  apply banner_of_data_prefix
  simp only [generate_create_usecase, create_usecase_path,
    String.data_append, List.append_assoc, List.cons_append, List.nil_append]
  simp only [List.cons_prefix_cons, true_and]
  apply prefix_append_congr
  simp only [List.cons_prefix_cons, true_and]
  apply prefix_append_congr
  simp only [List.cons_prefix_cons, true_and]
  exact List.nil_prefix

/-- The Update use-case file text begins with a banner naming its path. -/
theorem banner_update_usecase (c : GeneratorConfig) :
    ∃ r, generate_update_usecase c = "// " ++ update_usecase_path c ++ r := by
  apply banner_of_data_prefix
  simp only [generate_update_usecase, update_usecase_path,
    String.data_append, List.append_assoc, List.cons_append, List.nil_append]
  simp only [List.cons_prefix_cons, true_and]
  apply prefix_append_congr
  simp only [List.cons_prefix_cons, true_and]
  apply prefix_append_congr
  simp only [List.cons_prefix_cons, true_and]
  exact List.nil_prefix

/-- The Delete use-case file text begins with a banner naming its path. -/
theorem banner_delete_usecase (c : GeneratorConfig) :
    ∃ r, generate_delete_usecase c = "// " ++ delete_usecase_path c ++ r := by
  apply banner_of_data_prefix
  simp only [generate_delete_usecase, delete_usecase_path,
    String.data_append, List.append_assoc, List.cons_append, List.nil_append]
  simp only [List.cons_prefix_cons, true_and]
  apply prefix_append_congr
  simp only [List.cons_prefix_cons, true_and]
  apply prefix_append_congr
  simp only [List.cons_prefix_cons, true_and]
  exact List.nil_prefix

/-- The model file text begins with a banner naming its path. -/
theorem banner_model (c : GeneratorConfig) :
    ∃ r, generate_model c = "// " ++ model_path c ++ r := by
  apply banner_of_data_prefix
  simp only [generate_model, model_path, String.data_append,
    List.append_assoc, List.cons_append, List.nil_append]
  simp only [List.cons_prefix_cons, true_and]
  apply prefix_append_congr
  simp only [List.cons_prefix_cons, true_and]
  exact List.nil_prefix

/-- The remote datasource interface file text begins with a banner naming its
path. -/
theorem banner_remote_interface (c : GeneratorConfig) :
    ∃ r, generate_remote_datasource_interface c =
      "// " ++ remote_interface_path c ++ r := by
  apply banner_of_data_prefix
  simp only [generate_remote_datasource_interface, remote_interface_path,
    String.data_append, List.append_assoc, List.cons_append, List.nil_append]
  simp only [List.cons_prefix_cons, true_and]
  apply prefix_append_congr
  simp only [List.cons_prefix_cons, true_and]
  exact List.nil_prefix

/-- The remote datasource implementation file text begins with a banner naming
its path. -/
theorem banner_remote_impl (c : GeneratorConfig) :
    ∃ r, generate_remote_datasource_impl c = "// " ++ remote_impl_path c ++ r := by
  apply banner_of_data_prefix
  simp only [generate_remote_datasource_impl, remote_impl_before_endpoint,
    remote_impl_path, String.data_append, List.append_assoc, List.cons_append,
    List.nil_append]
  simp only [List.cons_prefix_cons, true_and]
  apply prefix_append_congr
  simp only [List.cons_prefix_cons, true_and]
  exact List.nil_prefix

/-- The local datasource interface file text begins with a banner naming its
path. -/
theorem banner_local_interface (c : GeneratorConfig) :
    ∃ r, generate_local_datasource_interface c =
      "// " ++ local_interface_path c ++ r := by
  apply banner_of_data_prefix
  simp only [generate_local_datasource_interface, local_interface_path,
    String.data_append, List.append_assoc, List.cons_append, List.nil_append]
  simp only [List.cons_prefix_cons, true_and]
  apply prefix_append_congr
  simp only [List.cons_prefix_cons, true_and]
  exact List.nil_prefix

/-- The local datasource implementation file text begins with a banner naming
its path. -/
theorem banner_local_impl (c : GeneratorConfig) :
    ∃ r, generate_local_datasource_impl c = "// " ++ local_impl_path c ++ r := by
  apply banner_of_data_prefix
  simp only [generate_local_datasource_impl, local_impl_path,
    String.data_append, List.append_assoc, List.cons_append, List.nil_append]
  simp only [List.cons_prefix_cons, true_and]
  apply prefix_append_congr
  simp only [List.cons_prefix_cons, true_and]
  exact List.nil_prefix

/-- The repository implementation file text begins with a banner naming its
path. -/
theorem banner_repository_impl (c : GeneratorConfig) :
    ∃ r, generate_repository_impl c = "// " ++ repository_impl_path c ++ r := by
  apply banner_of_data_prefix
  simp only [generate_repository_impl, repository_impl_before_get_all,
    repository_impl_path, String.data_append, List.append_assoc,
    List.cons_append, List.nil_append]
  simp only [List.cons_prefix_cons, true_and]
  apply prefix_append_congr
  simp only [List.cons_prefix_cons, true_and]
  exact List.nil_prefix

/-- The view-model file text begins with a banner naming its path. -/
theorem banner_viewmodel (c : GeneratorConfig) :
    ∃ r, generate_viewmodel c = "// " ++ viewmodel_path c ++ r := by
  apply banner_of_data_prefix
  simp only [generate_viewmodel, viewmodel_path, String.data_append,
    List.append_assoc, List.cons_append, List.nil_append]
  simp only [List.cons_prefix_cons, true_and]
  apply prefix_append_congr
  simp only [List.cons_prefix_cons, true_and]
  exact List.nil_prefix

/-- The page file text begins with a banner naming its path. -/
theorem banner_page (c : GeneratorConfig) :
    ∃ r, generate_page c = "// " ++ page_path c ++ r := by
  apply banner_of_data_prefix
  simp only [generate_page, page_path, String.data_append,
    List.append_assoc, List.cons_append, List.nil_append]
  simp only [List.cons_prefix_cons, true_and]
  apply prefix_append_congr
  simp only [List.cons_prefix_cons, true_and]
  exact List.nil_prefix

/-- The MVVM repository file text begins with a banner naming its path. -/
theorem banner_simple_repository (c : GeneratorConfig) :
    ∃ r, generate_simple_repository c =
      "// " ++ simple_repository_path c ++ r := by
  apply banner_of_data_prefix
  simp only [generate_simple_repository, simple_repository_before_endpoint,
    simple_repository_path, String.data_append, List.append_assoc,
    List.cons_append, List.nil_append]
  simp only [List.cons_prefix_cons, true_and]
  apply prefix_append_congr
  simp only [List.cons_prefix_cons, true_and]
  exact List.nil_prefix

/-- The MVVM view-model file text begins with a banner naming its path. -/
theorem banner_simple_viewmodel (c : GeneratorConfig) :
    ∃ r, generate_simple_viewmodel c =
      "// " ++ simple_viewmodel_path c ++ r := by
  apply banner_of_data_prefix
  simp only [generate_simple_viewmodel, simple_viewmodel_path,
    String.data_append, List.append_assoc, List.cons_append, List.nil_append]
  simp only [List.cons_prefix_cons, true_and]
  apply prefix_append_congr
  simp only [List.cons_prefix_cons, true_and]
  exact List.nil_prefix

/-- C1: for every valid GeneratorConfig, `generate_all` is deterministic —
two invocations on equal configs produce identical file maps (same relative
paths, identical text at each path).  The embedding of `generate_all` is a
pure function of the config, mirroring the source, which reads no state
besides the config and its derived name forms. -/
theorem claim_c1_generate_all_deterministic (c₁ c₂ : GeneratorConfig)
    (h : c₁ = c₂) : generate_all c₁ = generate_all c₂ := by
  rw [h]

/-- Witness for C1 at the concrete `User` scenario config. -/
theorem claim_c1_witness :
    userConfig = userConfig ∧ generate_all userConfig = generate_all userConfig :=
  ⟨rfl, claim_c1_generate_all_deterministic userConfig userConfig rfl⟩

/-- C2 counterexample: the `User` CLEAN scenario yields 13 files without cache
(not 11 as claimed) and 15 with cache (not 13). -/
theorem claim_c2_counterexample :
    (file_paths userConfig).length = 13 ∧
    (file_paths userConfigCache).length = 15 ∧
    ¬ ((file_paths userConfig).length = 11) ∧
    ¬ ((file_paths userConfigCache).length = 13) := by
  decide

/-- C2 amended: the `User` CLEAN scenario without cache yields exactly the
enumerated files — entity, repository interface, 5 use cases, DTO+mapper
model, remote datasource interface and implementation, repository
implementation, view-model and page — 13 files with no local-datasource
files; with cache the same files plus the two local-datasource files, 15 in
total. -/
theorem claim_c2_user_scenario_file_set :
    file_paths userConfig =
      ["domain/entities/User.ets", "domain/repositories/IUserRepository.ets",
       "domain/usecases/user/GetusersUseCase.ets",
       "domain/usecases/user/GetUserByIdUseCase.ets",
       "domain/usecases/user/CreateUserUseCase.ets",
       "domain/usecases/user/UpdateUserUseCase.ets",
       "domain/usecases/user/DeleteUserUseCase.ets",
       "data/models/UserModel.ets",
       "data/datasources/IUserRemoteDataSource.ets",
       "data/datasources/UserRemoteDataSourceImpl.ets",
       "data/repositories/UserRepositoryImpl.ets",
       "presentation/viewmodels/UserViewModel.ets",
       "presentation/views/pages/UserPage.ets"] ∧
    file_paths userConfigCache =
      ["domain/entities/User.ets", "domain/repositories/IUserRepository.ets",
       "domain/usecases/user/GetusersUseCase.ets",
       "domain/usecases/user/GetUserByIdUseCase.ets",
       "domain/usecases/user/CreateUserUseCase.ets",
       "domain/usecases/user/UpdateUserUseCase.ets",
       "domain/usecases/user/DeleteUserUseCase.ets",
       "data/models/UserModel.ets",
       "data/datasources/IUserRemoteDataSource.ets",
       "data/datasources/UserRemoteDataSourceImpl.ets",
       "data/datasources/IUserLocalDataSource.ets",
       "data/datasources/UserLocalDataSourceImpl.ets",
       "data/repositories/UserRepositoryImpl.ets",
       "presentation/viewmodels/UserViewModel.ets",
       "presentation/views/pages/UserPage.ets"] := by
  decide

/-- C3: the two local-datasource files are present in the output map iff the
architecture is clean and `include_cache` is set; the repository
implementation interpolates the try/cache/fall-back logic into its GetAll
body iff `include_cache` is set, and with caching disabled the GetAll body is
the direct remote call and the local-datasource import line is empty. -/
theorem claim_c3_local_files_iff_cache (c : GeneratorConfig) :
    ((local_interface_path c ∈ file_paths c ∧ local_impl_path c ∈ file_paths c) ↔
      (c.architecture = "clean" ∧ c.include_cache = true)) ∧
    (repository_impl_cache_logic c = repository_impl_fallback_logic c ↔
      c.include_cache = true) ∧
    (generate_repository_impl c =
      repository_impl_before_get_all c ++ repository_impl_cache_logic c ++
      repository_impl_after_get_all c) ∧
    (c.include_cache = false →
      repository_impl_cache_logic c = repository_impl_direct_logic c ∧
      repository_impl_cache_import c = "") := by
  refine ⟨?_, ?_, rfl, ?_⟩
  · constructor
    · rintro ⟨hm, _⟩
      by_contra hnc
      rcases Classical.em (c.architecture = "clean") with hc | hc
      · have hk : c.include_cache = false := by
          cases hk2 : c.include_cache
          · rfl
          · exact absurd ⟨hc, hk2⟩ hnc
        rw [file_paths_clean_nocache c hc hk] at hm
        simp only [List.mem_cons, List.not_mem_nil, or_false] at hm
        rcases hm with h|h|h|h|h|h|h|h|h|h|h|h|h
        · exact absurd h (local_interface_ne_entity c)
        · exact absurd h (local_interface_ne_repository_interface c)
        · exact absurd h (local_interface_ne_get_all c)
        · exact absurd h (local_interface_ne_get_by_id c)
        · exact absurd h (local_interface_ne_create c)
        · exact absurd h (local_interface_ne_update c)
        · exact absurd h (local_interface_ne_delete c)
        · exact absurd h (local_interface_ne_model c)
        · exact absurd h (local_interface_ne_remote_interface c)
        · exact absurd h (local_interface_ne_remote_impl c)
        · exact absurd h (local_interface_ne_repository_impl c)
        · exact absurd h (local_interface_ne_viewmodel c)
        · exact absurd h (local_interface_ne_page c)
      · rw [file_paths_nonclean c hc] at hm
        simp only [List.mem_cons, List.not_mem_nil, or_false] at hm
        rcases hm with h|h|h|h
        · exact absurd h (local_interface_ne_simple_model c)
        · exact absurd h (local_interface_ne_simple_repository c)
        · exact absurd h (local_interface_ne_simple_viewmodel c)
        · exact absurd h (local_interface_ne_simple_page c)
    · rintro ⟨hc, hk⟩
      rw [file_paths_clean_cache c hc hk]
      constructor
      · simp only [List.mem_cons]
        tauto
      · simp only [List.mem_cons]
        tauto
  · cases hk : c.include_cache
    · simp only [repository_impl_cache_logic, hk, Bool.false_eq_true, if_false]
      constructor
      · intro h
        exact absurd h (direct_ne_fallback c)
      · intro h
        cases h
    · simp [repository_impl_cache_logic, hk]
  · intro hk
    exact ⟨by simp [repository_impl_cache_logic, hk],
           by simp [repository_impl_cache_import, hk]⟩

/-- Witness for C3 at the cache-free `User` scenario config. -/
theorem claim_c3_witness :
    repository_impl_cache_logic userConfig =
      repository_impl_direct_logic userConfig ∧
    repository_impl_cache_import userConfig = "" :=
  (claim_c3_local_files_iff_cache userConfig).2.2.2 rfl

/-- C4 counterexample: for entity name `BlogPost` the derived lower form is
`blogpost` (the whole name lower-cased), not `blogPost` (only the first
character lower-cased) as claimed, and the emitted use-case directory uses
the all-lowercase form. -/
theorem claim_c4_counterexample :
    entity_name_lower blogPostConfig = "blogpost" ∧
    ¬ (entity_name_lower blogPostConfig = "blogPost") ∧
    get_all_usecase_path blogPostConfig =
      "domain/usecases/blogpost/GetblogpostsUseCase.ets" ∧
    ¬ ("domain/usecases/blogPost/GetblogPostsUseCase.ets" ∈
        file_paths blogPostConfig) := by
  decide

/-- C4 amended: the derived lower form is the entity name with every
character lower-cased (Python `str.lower`), and it is the form used in the
emitted use-case directory path. -/
theorem claim_c4_lower_full_lowercase (c : GeneratorConfig)
    (h : c.architecture = "clean") :
    entity_name_lower c = String.mk (c.entity_name.data.map Char.toLower) ∧
    ("domain/usecases/" ++ entity_name_lower c ++ "/Get" ++
      entity_name_plural c ++ "UseCase.ets") ∈ file_paths c := by
  refine ⟨rfl, ?_⟩
  cases hk : c.include_cache
  · rw [file_paths_clean_nocache c h hk]
    simp [get_all_usecase_path, List.mem_cons]
  · rw [file_paths_clean_cache c h hk]
    simp [get_all_usecase_path, List.mem_cons]

/-- Witness for C4 at the `User` scenario config. -/
theorem claim_c4_witness :
    entity_name_lower userConfig =
      String.mk (userConfig.entity_name.data.map Char.toLower) ∧
    ("domain/usecases/" ++ entity_name_lower userConfig ++ "/Get" ++
      entity_name_plural userConfig ++ "UseCase.ets") ∈ file_paths userConfig :=
  claim_c4_lower_full_lowercase userConfig rfl

/-- C5: the pluralizer replaces a trailing `y` by `ies`, appends `es` after a
trailing `s`, `x` or `z`, and appends `s` otherwise; in particular
`category` pluralizes to `categories`, `bus` to `buses` and `user` to
`users`. -/
theorem claim_c5_pluralize :
    (∀ w v, w = v ++ "y" → pluralize w = v ++ "ies") ∧
    (∀ w v s, (s = "s" ∨ s = "x" ∨ s = "z") → w = v ++ s →
      pluralize w = w ++ "es") ∧
    (∀ w, w.data.getLast? ≠ some 'y' → w.data.getLast? ≠ some 's' →
      w.data.getLast? ≠ some 'x' → w.data.getLast? ≠ some 'z' →
      pluralize w = w ++ "s") ∧
    pluralize "category" = "categories" ∧ pluralize "bus" = "buses" ∧
    pluralize "user" = "users" := by
  refine ⟨?_, ?_, ?_, by decide, by decide, by decide⟩
  · rintro w v rfl
    have hd : (v ++ "y").data = v.data ++ ['y'] := by
      rw [String.data_append]
    simp [pluralize, hd, List.getLast?_concat, List.dropLast_concat]
  · rintro w v s (rfl | rfl | rfl) rfl
    · have hd : (v ++ "s").data = v.data ++ ['s'] := by
        rw [String.data_append]
      simp [pluralize, hd, List.getLast?_concat]
    · have hd : (v ++ "x").data = v.data ++ ['x'] := by
        rw [String.data_append]
      simp [pluralize, hd, List.getLast?_concat]
    · have hd : (v ++ "z").data = v.data ++ ['z'] := by
        rw [String.data_append]
      simp [pluralize, hd, List.getLast?_concat]
  · intro w h1 h2 h3 h4
    simp [pluralize, h1, h2, h3, h4]

/-- Witness for C5 at concrete words for each of the three branches. -/
theorem claim_c5_witness :
    pluralize ("categor" ++ "y") = "categor" ++ "ies" ∧
    pluralize ("bu" ++ "s") = ("bu" ++ "s") ++ "es" ∧
    pluralize "user" = "user" ++ "s" :=
  ⟨claim_c5_pluralize.1 _ "categor" rfl,
   claim_c5_pluralize.2.1 _ "bu" "s" (Or.inl rfl) rfl,
   claim_c5_pluralize.2.2.1 "user" (by decide) (by decide) (by decide)
     (by decide)⟩

/-- C6 counterexample: for entity `Category` the endpoint interpolated into
the generated remote-access code is `/categorys` (slash, lowercased name,
plain `s`), which differs from `/` followed by the plural form
`categories`. -/
theorem claim_c6_counterexample :
    request_endpoint categoryConfig = "/categorys" ∧
    "/" ++ entity_name_plural categoryConfig = "/categories" ∧
    ¬ (request_endpoint categoryConfig =
        "/" ++ entity_name_plural categoryConfig) ∧
    (∃ a b, generate_remote_datasource_impl categoryConfig =
      a ++ "/categorys" ++ b) := by
  refine ⟨by decide, by decide, by decide, ?_⟩
  refine ⟨remote_impl_before_endpoint categoryConfig,
    remote_impl_after_endpoint categoryConfig, ?_⟩
  rw [show ("/categorys" : String) = request_endpoint categoryConfig from
    by decide]
  rfl

/-- C6 amended: the request base path interpolated into both the CLEAN remote
datasource implementation and the MVVM repository is a slash followed by the
lowercased entity name with a plain appended `s` (not the pluralizer's
output). -/
theorem claim_c6_endpoint_lower_s (c : GeneratorConfig) :
    request_endpoint c = "/" ++ entity_name_lower c ++ "s" ∧
    generate_remote_datasource_impl c =
      remote_impl_before_endpoint c ++ request_endpoint c ++
      remote_impl_after_endpoint c ∧
    generate_simple_repository c =
      simple_repository_before_endpoint c ++ request_endpoint c ++
      simple_repository_after_endpoint c :=
  ⟨rfl, rfl, rfl⟩

/-- C7 counterexample: an architecture value outside the enumeration
(`flutter`) does not abort generation — `generate_all` silently produces the
four MVVM files. -/
theorem claim_c7_counterexample :
    bogusArchConfig.architecture = "flutter" ∧
    ¬ (bogusArchConfig.architecture = "clean" ∨
       bogusArchConfig.architecture = "mvvm") ∧
    (file_paths bogusArchConfig).length = 4 ∧
    file_paths bogusArchConfig =
      ["data/models/User.ets", "data/repositories/UserRepository.ets",
       "viewmodels/UserViewModel.ets", "views/pages/UserPage.ets"] := by
  decide

/-- C7 amended: for every architecture value other than `clean` — including
values outside the enumeration — `generate_all` silently produces the MVVM
file set; no error is raised. -/
theorem claim_c7_nonclean_yields_mvvm_files (c : GeneratorConfig)
    (h : ¬ (c.architecture = "clean")) :
    file_paths c =
      [simple_model_path c, simple_repository_path c, simple_viewmodel_path c,
       simple_page_path c] :=
  file_paths_nonclean c h

/-- Witness for C7 at the `flutter` architecture config. -/
theorem claim_c7_witness :
    file_paths bogusArchConfig =
      [simple_model_path bogusArchConfig, simple_repository_path bogusArchConfig,
       simple_viewmodel_path bogusArchConfig, simple_page_path bogusArchConfig] :=
  claim_c7_nonclean_yields_mvvm_files bogusArchConfig (by decide)

/-- C8 counterexample: when the caller supplies a property named `id` (here
typed `string`, optional, and in second position), `_parse_config` keeps it
as-is — the resulting list has `id` neither first, nor typed `number`, nor
non-optional. -/
theorem claim_c8_counterexample :
    parse_config_properties [titleProperty, badIdProperty] =
      [titleProperty, badIdProperty] ∧
    (parse_config_properties [titleProperty, badIdProperty]).head? =
      some titleProperty ∧
    titleProperty.name ≠ "id" ∧
    (parse_config_properties [titleProperty, badIdProperty]).filter
      (fun p => p.name = "id") = [badIdProperty] ∧
    badIdProperty.type = "string" ∧ badIdProperty.optional = true := by
  decide

/-- C8 amended: when no caller-supplied property is named `id`, the CLI
synthesizes `id:number`, non-optional, at position 0, and it is then the only
property named `id`; the constructor default for any property named `id` is
`0`.  A caller-supplied `id` is kept exactly as given. -/
theorem claim_c8_id_synthesis (props : List PropertyConfig)
    (h : props.any (fun p => p.name = "id") = false) :
    parse_config_properties props = synthesized_id_property :: props ∧
    (parse_config_properties props).filter (fun p => p.name = "id") =
      [synthesized_id_property] ∧
    synthesized_id_property.type = "number" ∧
    synthesized_id_property.optional = false ∧
    (∀ p : PropertyConfig, p.name = "id" → get_default_value p = " = 0") := by
  have hp : parse_config_properties props = synthesized_id_property :: props := by
    simp only [parse_config_properties, h, Bool.false_eq_true, if_false]
  refine ⟨hp, ?_, rfl, rfl, ?_⟩
  · rw [hp]
    simp only [List.filter_cons]
    rw [if_pos (by decide)]
    have hf : props.filter (fun p => decide (p.name = "id")) = [] := by
      rw [List.filter_eq_nil_iff]
      intro a ha
      simp only [List.any_eq_false] at h
      simpa using h a ha
    rw [hf]
  · intro p hp2
    simp [get_default_value, hp2]

/-- Witness for C8 at a one-property caller list without `id`. -/
theorem claim_c8_witness :
    parse_config_properties [titleProperty] =
      synthesized_id_property :: [titleProperty] :=
  (claim_c8_id_synthesis [titleProperty] (by decide)).1

/-- C9 counterexample: in MVVM mode the model file is emitted at
`data/models/User.ets` but its text begins with the banner
`// domain/entities/User.ets` (the CLEAN entity path), not with a banner
naming its own path. -/
theorem claim_c9_counterexample :
    (simple_model_path userMvvmConfig, generate_simple_model userMvvmConfig) ∈
      generate_all userMvvmConfig ∧
    simple_model_path userMvvmConfig = "data/models/User.ets" ∧
    (∃ r, generate_simple_model userMvvmConfig =
      "// " ++ "domain/entities/User.ets" ++ r) ∧
    ¬ (∃ r, generate_simple_model userMvvmConfig =
      "// " ++ simple_model_path userMvvmConfig ++ r) := by
  refine ⟨?_, by decide, ?_, ?_⟩
  · rw [show generate_all userMvvmConfig =
      [(simple_model_path userMvvmConfig, generate_simple_model userMvvmConfig),
       (simple_repository_path userMvvmConfig,
         generate_simple_repository userMvvmConfig),
       (simple_viewmodel_path userMvvmConfig,
         generate_simple_viewmodel userMvvmConfig),
       (simple_page_path userMvvmConfig, generate_simple_page userMvvmConfig)]
      from by
        simp [generate_all,
          show ¬ (userMvvmConfig.architecture = "clean") from by decide]]
    exact List.mem_cons_self _ _
  · obtain ⟨r, hr⟩ := banner_entity userMvvmConfig
    refine ⟨r, ?_⟩
    rw [show ("domain/entities/User.ets" : String) =
      entity_path userMvvmConfig from by decide]
    exact hr
  · rintro ⟨r, hr⟩
    obtain ⟨r', hr'⟩ := banner_entity userMvvmConfig
    have h1 : (generate_simple_model userMvvmConfig).data[4]? = some 'a' := by
      rw [hr, data_getElem?_left ("// " ++ simple_model_path userMvvmConfig) r 4
        (by decide)]
      decide
    have h2 : (generate_simple_model userMvvmConfig).data[4]? = some 'o' := by
      show (generate_entity userMvvmConfig).data[4]? = some 'o'
      rw [hr', data_getElem?_left ("// " ++ entity_path userMvvmConfig) r' 4
        (by decide)]
      decide
    rw [h1] at h2
    exact absurd h2 (by decide)

/-- C9 amended: in CLEAN mode every emitted file's text begins with a banner
naming its own relative path; in MVVM mode this holds for the repository and
view-model files, while the model and page files (which reuse the CLEAN
generators) carry banners naming the corresponding CLEAN paths. -/
theorem claim_c9_banner_paths (c : GeneratorConfig) :
    (c.architecture = "clean" →
      ∀ p t, (p, t) ∈ generate_all c → ∃ r, t = "// " ++ p ++ r) ∧
    (∃ r, generate_simple_repository c =
      "// " ++ simple_repository_path c ++ r) ∧
    (∃ r, generate_simple_viewmodel c =
      "// " ++ simple_viewmodel_path c ++ r) ∧
    (∃ r, generate_simple_model c = "// " ++ entity_path c ++ r) ∧
    (∃ r, generate_simple_page c = "// " ++ page_path c ++ r) := by
  refine ⟨?_, banner_simple_repository c, banner_simple_viewmodel c,
    banner_entity c, banner_page c⟩
  intro hc p t hmem
  have hF : (generate_all c).Forall
      (fun pt => ∃ r, pt.2 = "// " ++ pt.1 ++ r) := by
    cases hk : c.include_cache
    · have hga : generate_all c =
        [(entity_path c, generate_entity c),
         (repository_interface_path c, generate_repository_interface c),
         (get_all_usecase_path c, generate_get_all_usecase c),
         (get_by_id_usecase_path c, generate_get_by_id_usecase c),
         (create_usecase_path c, generate_create_usecase c),
         (update_usecase_path c, generate_update_usecase c),
         (delete_usecase_path c, generate_delete_usecase c),
         (model_path c, generate_model c),
         (remote_interface_path c, generate_remote_datasource_interface c),
         (remote_impl_path c, generate_remote_datasource_impl c),
         (repository_impl_path c, generate_repository_impl c),
         (viewmodel_path c, generate_viewmodel c),
         (page_path c, generate_page c)] := by
        simp [generate_all, hc, hk]
      rw [hga]
      simp only [List.Forall]
      exact ⟨banner_entity c, banner_repository_interface c,
        banner_get_all_usecase c, banner_get_by_id_usecase c,
        banner_create_usecase c, banner_update_usecase c,
        banner_delete_usecase c, banner_model c, banner_remote_interface c,
        banner_remote_impl c, banner_repository_impl c, banner_viewmodel c,
        banner_page c⟩
    · have hga : generate_all c =
        [(entity_path c, generate_entity c),
         (repository_interface_path c, generate_repository_interface c),
         (get_all_usecase_path c, generate_get_all_usecase c),
         (get_by_id_usecase_path c, generate_get_by_id_usecase c),
         (create_usecase_path c, generate_create_usecase c),
         (update_usecase_path c, generate_update_usecase c),
         (delete_usecase_path c, generate_delete_usecase c),
         (model_path c, generate_model c),
         (remote_interface_path c, generate_remote_datasource_interface c),
         (remote_impl_path c, generate_remote_datasource_impl c),
         (local_interface_path c, generate_local_datasource_interface c),
         (local_impl_path c, generate_local_datasource_impl c),
         (repository_impl_path c, generate_repository_impl c),
         (viewmodel_path c, generate_viewmodel c),
         (page_path c, generate_page c)] := by
        simp [generate_all, hc, hk]
      rw [hga]
      simp only [List.Forall]
      exact ⟨banner_entity c, banner_repository_interface c,
        banner_get_all_usecase c, banner_get_by_id_usecase c,
        banner_create_usecase c, banner_update_usecase c,
        banner_delete_usecase c, banner_model c, banner_remote_interface c,
        banner_remote_impl c, banner_local_interface c, banner_local_impl c,
        banner_repository_impl c, banner_viewmodel c, banner_page c⟩
  exact (List.forall_iff_forall_mem.mp hF) (p, t) hmem

/-- Witness for C9: the entity file of the `User` scenario begins with a
banner naming its own path. -/
theorem claim_c9_witness :
    ∃ r, generate_entity userConfig = "// " ++ entity_path userConfig ++ r :=
  (claim_c9_banner_paths userConfig).1 rfl (entity_path userConfig)
    (generate_entity userConfig)
    (by
      rw [show generate_all userConfig =
        [(entity_path userConfig, generate_entity userConfig),
         (repository_interface_path userConfig,
           generate_repository_interface userConfig),
         (get_all_usecase_path userConfig, generate_get_all_usecase userConfig),
         (get_by_id_usecase_path userConfig,
           generate_get_by_id_usecase userConfig),
         (create_usecase_path userConfig, generate_create_usecase userConfig),
         (update_usecase_path userConfig, generate_update_usecase userConfig),
         (delete_usecase_path userConfig, generate_delete_usecase userConfig),
         (model_path userConfig, generate_model userConfig),
         (remote_interface_path userConfig,
           generate_remote_datasource_interface userConfig),
         (remote_impl_path userConfig,
           generate_remote_datasource_impl userConfig),
         (repository_impl_path userConfig,
           generate_repository_impl userConfig),
         (viewmodel_path userConfig, generate_viewmodel userConfig),
         (page_path userConfig, generate_page userConfig)] from by
          simp [generate_all, show userConfig.architecture = "clean" from rfl,
            show userConfig.include_cache = false from rfl]]
      exact List.mem_cons_self _ _)

/-- C10: for the MIN_LENGTH, MAX_LENGTH, MIN, MAX and PATTERN rules the
emitted check text is independent of the property's optional flag and of its
type (only REQUIRED's text depends on the type, and no check depends on the
optional flag); the MIN_LENGTH check starts directly with the length
comparison, with no preceding undefined/null guard. -/
theorem claim_c10_validation_checks_uniform :
    (∀ (p : PropertyConfig) (r : ValidationRule) (b : Bool),
      validation_chunk { p with optional := b } r = validation_chunk p r) ∧
    (∀ (p : PropertyConfig) (r : ValidationRule) (t : String),
      r.type ≠ ValidationType.required →
      validation_chunk { p with type := t } r = validation_chunk p r) ∧
    (∀ (p : PropertyConfig) (v m : Option String),
      ∃ rest, validation_chunk p
          { type := ValidationType.min_length, value := v, message := m } =
        "    if (this." ++ p.name ++ ".length < " ++ py_str_opt v ++ rest) ∧
    validation_chunk { titleProperty with type := "string" } requiredRule ≠
      validation_chunk { titleProperty with type := "number" } requiredRule := by
  refine ⟨?_, ?_, ?_, by decide⟩
  · rintro p ⟨ty, v, m⟩ b
    cases ty <;> rfl
  · rintro p ⟨ty, v, m⟩ t h
    cases ty
    · exact absurd rfl h
    all_goals rfl
  · intro p v m
    refine ⟨") \x7b\n      throw new Error(\x27" ++
      py_or_message m (p.name ++ " deve ter no mínimo " ++ py_str_opt v ++
        " caracteres") ++ "\x27);\n    \x7d\n", ?_⟩
    simp only [validation_chunk]
    simp [str_append_assoc]

/-- Witness for C10 at a concrete optional string property with a MIN_LENGTH
rule. -/
theorem claim_c10_witness :
    validation_chunk { optionalTitleProperty with optional := false }
      minLengthRule = validation_chunk optionalTitleProperty minLengthRule ∧
    validation_chunk { optionalTitleProperty with type := "number" }
      minLengthRule = validation_chunk optionalTitleProperty minLengthRule ∧
    (∃ rest, validation_chunk optionalTitleProperty
        { type := ValidationType.min_length, value := some "5",
          message := none } =
      "    if (this." ++ optionalTitleProperty.name ++ ".length < " ++
        py_str_opt (some "5") ++ rest) :=
  ⟨claim_c10_validation_checks_uniform.1 optionalTitleProperty minLengthRule
     false,
   claim_c10_validation_checks_uniform.2.1 optionalTitleProperty minLengthRule
     "number" (by decide),
   claim_c10_validation_checks_uniform.2.2.1 optionalTitleProperty (some "5")
     none⟩
